import Mathlib

/-!
Verification of the cMyBP-C phosphorylation model repository
(Kampourakis, Ponnam, Koch 2023).

The development embeds, over exact rational arithmetic:
  * `cMyBPC_model1` (src/models_cMyBPC.py), the Michaelis-Menten type
    competitive rate-law ODE right-hand side for the eight species
    P0, A, AB, ABG, D, AD, ABD, ABGD;
  * `odeRK4` (src/functions_cMyBPC.py), the fixed-step 4th-order
    Runge-Kutta integrator, in its autonomous and non-autonomous branches;
  * `run_simulation` (src/simulations.py), the retry controller around the
    integrator;
  * `fraction` and `fromIntv` (src/functions_cMyBPC.py).

State vectors are `Fin n → ℚ`; a returned trajectory (the transposed array
`x.T` of the Python code) is represented as the list of its columns, column
`i` being the state after `i` integration steps.  Machine floats are
modelled as exact rationals; `numpy` out-of-bounds assignments are modelled
by returning `none`.
-/

namespace CMyBPC

/-- Parameters of `cMyBPC_model1`: the Python code receives
`params = (k, K, (PKA, PKC, PP1, PP2A))` and unpacks it as
`k = params[0]`, `K = params[1]`, `PKA, PKC, PP1, PP2A = params[2]`. -/
structure Params1 where
  k : Fin 30 → ℚ
  K : Fin 30 → ℚ
  PKA : ℚ
  PKC : ℚ
  PP1 : ℚ
  PP2A : ℚ

/-! State indices (the Python unpacking `P0,A,AB,ABG,D,AD,ABD,ABGD = ICs`):
`x 0 = P0`, `x 1 = A`, `x 2 = AB`, `x 3 = ABG`, `x 4 = D`, `x 5 = AD`,
`x 6 = ABD`, `x 7 = ABGD`. -/

/-- Competition term `K_pka = P0/K[0]+A/K[3]+AB/K[6]+D/K[21]+AD/K[24]+ABD/K[27]`. -/
def K_pka (K : Fin 30 → ℚ) (x : Fin 8 → ℚ) : ℚ :=
  x 0 / K 0 + x 1 / K 3 + x 2 / K 6 + x 4 / K 21 + x 5 / K 24 + x 6 / K 27

/-- Competition term `K_pkc = P0/K[9]+A/K[12]+AB/K[15]+ABG/K[18]`. -/
def K_pkc (K : Fin 30 → ℚ) (x : Fin 8 → ℚ) : ℚ :=
  x 0 / K 9 + x 1 / K 12 + x 2 / K 15 + x 3 / K 18

/-- Competition term
`K_pp1 = A/K[1]+AB/K[4]+ABG/K[7]+D/K[10]+AD/K[13]+AD/K[22]+ABD/K[16]+ABD/K[25]+ABGD/K[19]+ABGD/K[28]`. -/
def K_pp1 (K : Fin 30 → ℚ) (x : Fin 8 → ℚ) : ℚ :=
  x 1 / K 1 + x 2 / K 4 + x 3 / K 7 + x 4 / K 10 + x 5 / K 13 + x 5 / K 22 +
    x 6 / K 16 + x 6 / K 25 + x 7 / K 19 + x 7 / K 28

/-- Competition term
`K_pp2a = A/K[2]+AB/K[5]+ABG/K[8]+D/K[11]+AD/K[14]+AD/K[23]+ABD/K[17]+ABD/K[26]+ABGD/K[20]+ABGD/K[29]`. -/
def K_pp2a (K : Fin 30 → ℚ) (x : Fin 8 → ℚ) : ℚ :=
  x 1 / K 2 + x 2 / K 5 + x 3 / K 8 + x 4 / K 11 + x 5 / K 14 + x 5 / K 23 +
    x 6 / K 17 + x 6 / K 26 + x 7 / K 20 + x 7 / K 29

/-! The thirty reaction rates of `cMyBPC_model1` (source lines 48-83). -/

/-- Rate `v1 = k[0]*PKA*P0/(K[0]*(1+K_pka-P0/K[0])+P0)`. -/
def v1 (p : Params1) (x : Fin 8 → ℚ) : ℚ :=
  p.k 0 * p.PKA * x 0 / (p.K 0 * (1 + K_pka p.K x - x 0 / p.K 0) + x 0)

/-- Rate `v4 = k[3]*PKA*A/(K[3]*(1+K_pka-A/K[3])+A)`. -/
def v4 (p : Params1) (x : Fin 8 → ℚ) : ℚ :=
  p.k 3 * p.PKA * x 1 / (p.K 3 * (1 + K_pka p.K x - x 1 / p.K 3) + x 1)

/-- Rate `v7 = k[6]*PKA*AB/(K[6]*(1+K_pka-AB/K[6])+AB)`. -/
def v7 (p : Params1) (x : Fin 8 → ℚ) : ℚ :=
  p.k 6 * p.PKA * x 2 / (p.K 6 * (1 + K_pka p.K x - x 2 / p.K 6) + x 2)

/-- Rate `v22 = k[21]*PKA*D/(K[21]*(1+K_pka-D/K[21])+D)`. -/
def v22 (p : Params1) (x : Fin 8 → ℚ) : ℚ :=
  p.k 21 * p.PKA * x 4 / (p.K 21 * (1 + K_pka p.K x - x 4 / p.K 21) + x 4)

/-- Rate `v25 = k[24]*PKA*AD/(K[24]*(1+K_pka-AD/K[24])+AD)`. -/
def v25 (p : Params1) (x : Fin 8 → ℚ) : ℚ :=
  p.k 24 * p.PKA * x 5 / (p.K 24 * (1 + K_pka p.K x - x 5 / p.K 24) + x 5)

/-- Rate `v28 = k[27]*PKA*ABD/(K[27]*(1+K_pka-ABD/K[27])+ABD)`. -/
def v28 (p : Params1) (x : Fin 8 → ℚ) : ℚ :=
  p.k 27 * p.PKA * x 6 / (p.K 27 * (1 + K_pka p.K x - x 6 / p.K 27) + x 6)

/-- Rate `v10 = k[9]*PKC*P0/(K[9]*(1+K_pkc-P0/K[9])+P0)`. -/
def v10 (p : Params1) (x : Fin 8 → ℚ) : ℚ :=
  p.k 9 * p.PKC * x 0 / (p.K 9 * (1 + K_pkc p.K x - x 0 / p.K 9) + x 0)

/-- Rate `v13 = k[12]*PKC*A/(K[12]*(1+K_pkc-A/K[12])+A)`. -/
def v13 (p : Params1) (x : Fin 8 → ℚ) : ℚ :=
  p.k 12 * p.PKC * x 1 / (p.K 12 * (1 + K_pkc p.K x - x 1 / p.K 12) + x 1)

/-- Rate `v16 = k[15]*PKC*AB/(K[15]*(1+K_pkc-AB/K[15])+AB)`. -/
def v16 (p : Params1) (x : Fin 8 → ℚ) : ℚ :=
  p.k 15 * p.PKC * x 2 / (p.K 15 * (1 + K_pkc p.K x - x 2 / p.K 15) + x 2)

/-- Rate `v19 = k[18]*PKC*ABG/(K[18]*(1+K_pkc-ABG/K[18])+ABG)`. -/
def v19 (p : Params1) (x : Fin 8 → ℚ) : ℚ :=
  p.k 18 * p.PKC * x 3 / (p.K 18 * (1 + K_pkc p.K x - x 3 / p.K 18) + x 3)

/-- Rate `v2 = k[1]*PP1*A/(K[1]*(1+K_pp1-A/K[1])+A)`. -/
def v2 (p : Params1) (x : Fin 8 → ℚ) : ℚ :=
  p.k 1 * p.PP1 * x 1 / (p.K 1 * (1 + K_pp1 p.K x - x 1 / p.K 1) + x 1)

/-- Rate `v5 = k[4]*PP1*AB/(K[4]*(1+K_pp1-AB/K[4])+AB)`. -/
def v5 (p : Params1) (x : Fin 8 → ℚ) : ℚ :=
  p.k 4 * p.PP1 * x 2 / (p.K 4 * (1 + K_pp1 p.K x - x 2 / p.K 4) + x 2)

/-- Rate `v8 = k[7]*PP1*ABG/(K[7]*(1+K_pp1-ABG/K[7])+ABG)`. -/
def v8 (p : Params1) (x : Fin 8 → ℚ) : ℚ :=
  p.k 7 * p.PP1 * x 3 / (p.K 7 * (1 + K_pp1 p.K x - x 3 / p.K 7) + x 3)

/-- Rate `v11 = k[10]*PP1*D/(K[10]*(1+K_pp1-D/K[10])+D)`. -/
def v11 (p : Params1) (x : Fin 8 → ℚ) : ℚ :=
  p.k 10 * p.PP1 * x 4 / (p.K 10 * (1 + K_pp1 p.K x - x 4 / p.K 10) + x 4)

/-- Rate `v14 = k[13]*PP1*AD/(K[13]*(1+K_pp1-AD/K[13])+AD)`. -/
def v14 (p : Params1) (x : Fin 8 → ℚ) : ℚ :=
  p.k 13 * p.PP1 * x 5 / (p.K 13 * (1 + K_pp1 p.K x - x 5 / p.K 13) + x 5)

/-- Rate `v17 = k[16]*PP1*ABD/(K[16]*(1+K_pp1-ABD/K[16])+ABD)`. -/
def v17 (p : Params1) (x : Fin 8 → ℚ) : ℚ :=
  p.k 16 * p.PP1 * x 6 / (p.K 16 * (1 + K_pp1 p.K x - x 6 / p.K 16) + x 6)

/-- Rate `v20 = k[19]*PP1*ABGD/(K[19]*(1+K_pp1-ABGD/K[19])+ABGD)`. -/
def v20 (p : Params1) (x : Fin 8 → ℚ) : ℚ :=
  p.k 19 * p.PP1 * x 7 / (p.K 19 * (1 + K_pp1 p.K x - x 7 / p.K 19) + x 7)

/-- Rate `v23 = k[22]*PP1*AD/(K[22]*(1+K_pp1-AD/K[22])+AD)`. -/
def v23 (p : Params1) (x : Fin 8 → ℚ) : ℚ :=
  p.k 22 * p.PP1 * x 5 / (p.K 22 * (1 + K_pp1 p.K x - x 5 / p.K 22) + x 5)

/-- Rate `v26 = k[25]*PP1*ABD/(K[25]*(1+K_pp1-ABD/K[25])+ABD)`. -/
def v26 (p : Params1) (x : Fin 8 → ℚ) : ℚ :=
  p.k 25 * p.PP1 * x 6 / (p.K 25 * (1 + K_pp1 p.K x - x 6 / p.K 25) + x 6)

/-- Rate `v29 = k[28]*PP1*ABGD/(K[28]*(1+K_pp1-ABGD/K[28])+ABGD)`. -/
def v29 (p : Params1) (x : Fin 8 → ℚ) : ℚ :=
  p.k 28 * p.PP1 * x 7 / (p.K 28 * (1 + K_pp1 p.K x - x 7 / p.K 28) + x 7)

/-- Rate `v3 = k[2]*PP2A*A/(K[2]*(1+K_pp2a-A/K[2])+A)`. -/
def v3 (p : Params1) (x : Fin 8 → ℚ) : ℚ :=
  p.k 2 * p.PP2A * x 1 / (p.K 2 * (1 + K_pp2a p.K x - x 1 / p.K 2) + x 1)

/-- Rate `v6 = k[5]*PP2A*AB/(K[5]*(1+K_pp2a-AB/K[5])+AB)`. -/
def v6 (p : Params1) (x : Fin 8 → ℚ) : ℚ :=
  p.k 5 * p.PP2A * x 2 / (p.K 5 * (1 + K_pp2a p.K x - x 2 / p.K 5) + x 2)

/-- Rate `v9 = k[8]*PP2A*ABG/(K[8]*(1+K_pp2a-ABG/K[8])+ABG)`. -/
def v9 (p : Params1) (x : Fin 8 → ℚ) : ℚ :=
  p.k 8 * p.PP2A * x 3 / (p.K 8 * (1 + K_pp2a p.K x - x 3 / p.K 8) + x 3)

/-- Rate `v12 = k[11]*PP2A*D/(K[11]*(1+K_pp2a-D/K[11])+D)`. -/
def v12 (p : Params1) (x : Fin 8 → ℚ) : ℚ :=
  p.k 11 * p.PP2A * x 4 / (p.K 11 * (1 + K_pp2a p.K x - x 4 / p.K 11) + x 4)

/-- Rate `v15 = k[14]*PP2A*AD/(K[14]*(1+K_pp2a-AD/K[14])+AD)`. -/
def v15 (p : Params1) (x : Fin 8 → ℚ) : ℚ :=
  p.k 14 * p.PP2A * x 5 / (p.K 14 * (1 + K_pp2a p.K x - x 5 / p.K 14) + x 5)

/-- Rate `v18 = k[17]*PP2A*ABD/(K[17]*(1+K_pp2a-ABD/K[17])+ABD)`. -/
def v18 (p : Params1) (x : Fin 8 → ℚ) : ℚ :=
  p.k 17 * p.PP2A * x 6 / (p.K 17 * (1 + K_pp2a p.K x - x 6 / p.K 17) + x 6)

/-- Rate `v21 = k[20]*PP2A*ABGD/(K[20]*(1+K_pp2a-ABGD/K[20])+ABGD)`. -/
def v21 (p : Params1) (x : Fin 8 → ℚ) : ℚ :=
  p.k 20 * p.PP2A * x 7 / (p.K 20 * (1 + K_pp2a p.K x - x 7 / p.K 20) + x 7)

/-- Rate `v24 = k[23]*PP2A*AD/(K[23]*(1+K_pp2a-AD/K[23])+AD)`. -/
def v24 (p : Params1) (x : Fin 8 → ℚ) : ℚ :=
  p.k 23 * p.PP2A * x 5 / (p.K 23 * (1 + K_pp2a p.K x - x 5 / p.K 23) + x 5)

/-- Rate `v27 = k[26]*PP2A*ABD/(K[26]*(1+K_pp2a-ABD/K[26])+ABD)`. -/
def v27 (p : Params1) (x : Fin 8 → ℚ) : ℚ :=
  p.k 26 * p.PP2A * x 6 / (p.K 26 * (1 + K_pp2a p.K x - x 6 / p.K 26) + x 6)

/-- Rate `v30 = k[29]*PP2A*ABGD/(K[29]*(1+K_pp2a-ABGD/K[29])+ABGD)`. -/
def v30 (p : Params1) (x : Fin 8 → ℚ) : ℚ :=
  p.k 29 * p.PP2A * x 7 / (p.K 29 * (1 + K_pp2a p.K x - x 7 / p.K 29) + x 7)

/-- The ODE right-hand side `cMyBPC_model1` of src/models_cMyBPC.py
(lines 27-98): derivative vector
`[dP0dt, dAdt, dABdt, dABGdt, dDdt, dADdt, dABDdt, dABGDdt]`.
The time argument `t` is unused (autonomous system), as in the source. -/
def cMyBPC_model1 (t : ℚ) (ICs : Fin 8 → ℚ) (params : Params1) : Fin 8 → ℚ :=
  ![v2 params ICs + v3 params ICs + v11 params ICs + v12 params ICs
      - v1 params ICs - v10 params ICs,
    v1 params ICs + v5 params ICs + v6 params ICs + v14 params ICs
      + v15 params ICs - v2 params ICs - v3 params ICs - v4 params ICs
      - v13 params ICs,
    v4 params ICs + v8 params ICs + v9 params ICs + v17 params ICs
      + v18 params ICs - v5 params ICs - v6 params ICs - v7 params ICs
      - v16 params ICs,
    v7 params ICs + v20 params ICs + v21 params ICs - v8 params ICs
      - v9 params ICs - v19 params ICs,
    v10 params ICs + v23 params ICs + v24 params ICs - v11 params ICs
      - v12 params ICs - v22 params ICs,
    v13 params ICs + v22 params ICs + v26 params ICs + v27 params ICs
      - v14 params ICs - v15 params ICs - v23 params ICs - v24 params ICs
      - v25 params ICs,
    v16 params ICs + v25 params ICs + v29 params ICs + v30 params ICs
      - v17 params ICs - v18 params ICs - v26 params ICs - v27 params ICs
      - v28 params ICs,
    v19 params ICs + v28 params ICs - v20 params ICs - v21 params ICs
      - v29 params ICs - v30 params ICs]

/-- All thirty rate-law denominators of `cMyBPC_model1` are nonzero
at state `x` under parameters `p`. -/
def model1DenomsNonzero (p : Params1) (x : Fin 8 → ℚ) : Prop :=
  p.K 0 * (1 + K_pka p.K x - x 0 / p.K 0) + x 0 ≠ 0 ∧
  p.K 3 * (1 + K_pka p.K x - x 1 / p.K 3) + x 1 ≠ 0 ∧
  p.K 6 * (1 + K_pka p.K x - x 2 / p.K 6) + x 2 ≠ 0 ∧
  p.K 21 * (1 + K_pka p.K x - x 4 / p.K 21) + x 4 ≠ 0 ∧
  p.K 24 * (1 + K_pka p.K x - x 5 / p.K 24) + x 5 ≠ 0 ∧
  p.K 27 * (1 + K_pka p.K x - x 6 / p.K 27) + x 6 ≠ 0 ∧
  p.K 9 * (1 + K_pkc p.K x - x 0 / p.K 9) + x 0 ≠ 0 ∧
  p.K 12 * (1 + K_pkc p.K x - x 1 / p.K 12) + x 1 ≠ 0 ∧
  p.K 15 * (1 + K_pkc p.K x - x 2 / p.K 15) + x 2 ≠ 0 ∧
  p.K 18 * (1 + K_pkc p.K x - x 3 / p.K 18) + x 3 ≠ 0 ∧
  p.K 1 * (1 + K_pp1 p.K x - x 1 / p.K 1) + x 1 ≠ 0 ∧
  p.K 4 * (1 + K_pp1 p.K x - x 2 / p.K 4) + x 2 ≠ 0 ∧
  p.K 7 * (1 + K_pp1 p.K x - x 3 / p.K 7) + x 3 ≠ 0 ∧
  p.K 10 * (1 + K_pp1 p.K x - x 4 / p.K 10) + x 4 ≠ 0 ∧
  p.K 13 * (1 + K_pp1 p.K x - x 5 / p.K 13) + x 5 ≠ 0 ∧
  p.K 16 * (1 + K_pp1 p.K x - x 6 / p.K 16) + x 6 ≠ 0 ∧
  p.K 19 * (1 + K_pp1 p.K x - x 7 / p.K 19) + x 7 ≠ 0 ∧
  p.K 22 * (1 + K_pp1 p.K x - x 5 / p.K 22) + x 5 ≠ 0 ∧
  p.K 25 * (1 + K_pp1 p.K x - x 6 / p.K 25) + x 6 ≠ 0 ∧
  p.K 28 * (1 + K_pp1 p.K x - x 7 / p.K 28) + x 7 ≠ 0 ∧
  p.K 2 * (1 + K_pp2a p.K x - x 1 / p.K 2) + x 1 ≠ 0 ∧
  p.K 5 * (1 + K_pp2a p.K x - x 2 / p.K 5) + x 2 ≠ 0 ∧
  p.K 8 * (1 + K_pp2a p.K x - x 3 / p.K 8) + x 3 ≠ 0 ∧
  p.K 11 * (1 + K_pp2a p.K x - x 4 / p.K 11) + x 4 ≠ 0 ∧
  p.K 14 * (1 + K_pp2a p.K x - x 5 / p.K 14) + x 5 ≠ 0 ∧
  p.K 17 * (1 + K_pp2a p.K x - x 6 / p.K 17) + x 6 ≠ 0 ∧
  p.K 20 * (1 + K_pp2a p.K x - x 7 / p.K 20) + x 7 ≠ 0 ∧
  p.K 23 * (1 + K_pp2a p.K x - x 5 / p.K 23) + x 5 ≠ 0 ∧
  p.K 26 * (1 + K_pp2a p.K x - x 6 / p.K 26) + x 6 ≠ 0 ∧
  p.K 29 * (1 + K_pp2a p.K x - x 7 / p.K 29) + x 7 ≠ 0

/-! ### The Runge-Kutta integrator `odeRK4` (src/functions_cMyBPC.py, lines 23-54)

The Python function stores the trajectory in a `steps x len(ICs)` array and
returns its transpose.  We represent the returned trajectory as the list of
its columns (`List (Fin n → ℚ)`), column `i` being row `i` of the internal
array.  `steps = int(t_end/stepsize)`; when `steps = 0` the initial
assignment `x[0,:] = ICs` is out of bounds and no trajectory is produced,
which we model by `none` (for the nonnegative quotients covered by the
claims, Python's `int`, truncation toward zero, agrees with the floor). -/

/-- One step of the classical RK4 scheme as performed inside the loop of
`odeRK4` at time `t`:
`k1 = fun(t,x)*h`, `k2 = fun(t,x+k1/2)*h`, `k3 = fun(t,x+k2/2)*h`,
`k4 = fun(t,x+k3)*h`, result `x + (k1+2*k2+2*k3+k4)/6`. -/
def rk4Step {n : ℕ} {P : Type} (f : ℚ → (Fin n → ℚ) → P → (Fin n → ℚ))
    (p : P) (t stepsize : ℚ) (x : Fin n → ℚ) : Fin n → ℚ :=
  let k1 : Fin n → ℚ := fun j => f t x p j * stepsize
  let k2 : Fin n → ℚ := fun j => f t (fun l => x l + k1 l / 2) p j * stepsize
  let k3 : Fin n → ℚ := fun j => f t (fun l => x l + k2 l / 2) p j * stepsize
  let k4 : Fin n → ℚ := fun j => f t (fun l => x l + k3 l) p j * stepsize
  fun j => x j + (k1 j + 2 * k2 j + 2 * k3 j + k4 j) / 6

/-- Row `i` of the internal trajectory array of `odeRK4` (autonomous
branch): row `0` is `ICs`, row `i+1` is obtained from row `i` by an RK4
step at time `t[i] = t_0 + i*stepsize`. -/
def odeTraj {n : ℕ} {P : Type} (f : ℚ → (Fin n → ℚ) → P → (Fin n → ℚ))
    (ICs : Fin n → ℚ) (p : P) (t_0 stepsize : ℚ) : ℕ → (Fin n → ℚ)
  | 0 => ICs
  | i + 1 => rk4Step f p (t_0 + (i : ℚ) * stepsize) stepsize
      (odeTraj f ICs p t_0 stepsize i)

/-- The autonomous branch of `odeRK4` (`naFun == None and naFunParams == None`):
integrates `fun` from `ICs` over `steps = int(t_end/stepsize)` rows and
returns the transposed trajectory as its list of columns. -/
def odeRK4 {n : ℕ} {P : Type} (f : ℚ → (Fin n → ℚ) → P → (Fin n → ℚ))
    (ICs : Fin n → ℚ) (p : P) (t_0 t_end stepsize : ℚ) :
    Option (List (Fin n → ℚ)) :=
  let steps := (⌊t_end / stepsize⌋).toNat
  if steps = 0 then none
  else some ((List.range steps).map (odeTraj f ICs p t_0 stepsize))

/-- One RK4 step of the non-autonomous branch of `odeRK4`: identical to
`rk4Step` except that the extra arguments `naFun`, `naFunParams` are passed
through to `fun` at every stage evaluation. -/
def rk4StepNA {n : ℕ} {P S A : Type}
    (f : ℚ → (Fin n → ℚ) → P → S → A → (Fin n → ℚ))
    (p : P) (naFun : S) (naFunParams : A) (t stepsize : ℚ)
    (x : Fin n → ℚ) : Fin n → ℚ :=
  let k1 : Fin n → ℚ := fun j => f t x p naFun naFunParams j * stepsize
  let k2 : Fin n → ℚ :=
    fun j => f t (fun l => x l + k1 l / 2) p naFun naFunParams j * stepsize
  let k3 : Fin n → ℚ :=
    fun j => f t (fun l => x l + k2 l / 2) p naFun naFunParams j * stepsize
  let k4 : Fin n → ℚ :=
    fun j => f t (fun l => x l + k3 l) p naFun naFunParams j * stepsize
  fun j => x j + (k1 j + 2 * k2 j + 2 * k3 j + k4 j) / 6

/-- Row `i` of the internal trajectory array of `odeRK4` (non-autonomous
branch, `naFun != None`). -/
def odeTrajNA {n : ℕ} {P S A : Type}
    (f : ℚ → (Fin n → ℚ) → P → S → A → (Fin n → ℚ))
    (ICs : Fin n → ℚ) (p : P) (naFun : S) (naFunParams : A)
    (t_0 stepsize : ℚ) : ℕ → (Fin n → ℚ)
  | 0 => ICs
  | i + 1 => rk4StepNA f p naFun naFunParams (t_0 + (i : ℚ) * stepsize)
      stepsize (odeTrajNA f ICs p naFun naFunParams t_0 stepsize i)

/-- The non-autonomous branch of `odeRK4` (`naFun != None`): same stepping
as the autonomous branch, with `naFun`, `naFunParams` passed through. -/
def odeRK4na {n : ℕ} {P S A : Type}
    (f : ℚ → (Fin n → ℚ) → P → S → A → (Fin n → ℚ))
    (ICs : Fin n → ℚ) (p : P) (t_0 t_end stepsize : ℚ)
    (naFun : S) (naFunParams : A) : Option (List (Fin n → ℚ)) :=
  let steps := (⌊t_end / stepsize⌋).toNat
  if steps = 0 then none
  else some ((List.range steps).map
    (odeTrajNA f ICs p naFun naFunParams t_0 stepsize))

/-! ### The simulation controller `run_simulation` (src/simulations.py, lines 254-282)

`run_simulation` wraps `odeRK4` calls (always at integration horizon
`t_end + 1`, with the non-autonomous signal arguments passed through) in a
retry ladder.  Two Python failure modes occur:
  * a numpy `RuntimeWarning` (floating-point overflow) promoted to an
    exception.  Overflow is a floating-point phenomenon with no rational
    counterpart, so whether the integration at a given step size raises is
    abstracted as an oracle `warns : ℚ → Bool` supplied to the model;
  * an `IndexError` when `odeRK4` is asked for zero steps (our `none`).
The outer `except RuntimeWarning` catches only the first kind; the inner
bare `except:` catches both. -/

/-- Python exceptions that can escape an `odeRK4` call inside
`run_simulation`. -/
inductive PyErr where
  | runtimeWarning : PyErr
  | indexError : PyErr
deriving DecidableEq

/-- A single `fun.odeRK4(model,ICs,params,t0,t_end+1,h2,naFun,naFunParams)`
call as made by `run_simulation`: raises `runtimeWarning` when the oracle
says the integration at this step size overflows, `indexError` when the
step count is zero, and returns the trajectory otherwise.  The `t_end`
argument here is the full horizon passed by `run_simulation`,
i.e. already `t_end + 1`. -/
def odeW {n : ℕ} {P S A : Type} (warns : ℚ → Bool)
    (model : ℚ → (Fin n → ℚ) → P → S → A → (Fin n → ℚ))
    (ICs : Fin n → ℚ) (params : P) (t0 t_end stepsize : ℚ)
    (naFun : S) (naFunParams : A) : Except PyErr (List (Fin n → ℚ)) :=
  if warns stepsize then Except.error PyErr.runtimeWarning
  else
    match odeRK4na model ICs params t0 t_end stepsize naFun naFunParams with
    | none => Except.error PyErr.indexError
    | some X => Except.ok X

/-- The numpy slice `output[:, ::m]`: every `m`-th column, starting at
column `0`; the result has `ceil(length/m)` columns. -/
def numpyStride {α : Type} [Inhabited α] (m : ℕ) (X : List α) : List α :=
  (List.range ((X.length + m - 1) / m)).map (fun i => X.getD (m * i) default)

/-- The negativity test `output[np.where(output<0)].shape[0] > 0`:
does any entry of any column lie below zero? -/
def hasNeg {n : ℕ} (X : List (Fin n → ℚ)) : Bool :=
  X.any (fun c => decide (∃ j, c j < 0))

/-- The retry controller `run_simulation` of src/simulations.py
(lines 254-282).  The trajectory of the first attempt at step size `h` is
re-integrated at step size `0.1` (keeping every 10th column) and then
`0.01` (keeping every 100th column) when it contains negative values —
unless `noisyS` is set; a `RuntimeWarning` escaping the `try` block is
caught and answered by the same two finer tiers without negativity checks,
the last tier uncaught.  `warns` is the overflow oracle of `odeW`. -/
def run_simulation {n : ℕ} {P S A : Type} (warns : ℚ → Bool)
    (ICs : Fin n → ℚ) (params : P) (t0 t_end h : ℚ)
    (naFun : S) (naFunParams : A)
    (model : ℚ → (Fin n → ℚ) → P → S → A → (Fin n → ℚ))
    (noisyS : Bool) : Except PyErr (List (Fin n → ℚ)) :=
  let tryBody : Except PyErr (List (Fin n → ℚ)) :=
    match odeW warns model ICs params t0 (t_end + 1) h naFun naFunParams with
    | Except.error e => Except.error e
    | Except.ok output =>
      if hasNeg output then
        if noisyS = false then
          match odeW warns model ICs params t0 (t_end + 1) (1/10)
              naFun naFunParams with
          | Except.error e => Except.error e
          | Except.ok output2 =>
            let output2s := numpyStride 10 output2
            if hasNeg output2s = false then Except.ok output2s
            else
              match odeW warns model ICs params t0 (t_end + 1) (1/100)
                  naFun naFunParams with
              | Except.error e => Except.error e
              | Except.ok output3 => Except.ok (numpyStride 100 output3)
        else Except.ok output
      else Except.ok output
  match tryBody with
  | Except.ok output => Except.ok output
  | Except.error PyErr.indexError => Except.error PyErr.indexError
  | Except.error PyErr.runtimeWarning =>
    match odeW warns model ICs params t0 (t_end + 1) (1/10)
        naFun naFunParams with
    | Except.ok output2 => Except.ok (numpyStride 10 output2)
    | Except.error _ =>
      match odeW warns model ICs params t0 (t_end + 1) (1/100)
          naFun naFunParams with
      | Except.ok output3 => Except.ok (numpyStride 100 output3)
      | Except.error e => Except.error e

/-! ### Species fractions and signal generation (src/functions_cMyBPC.py) -/

/-- Relative fractions of n-times phosphorylated cMyBP-C, `fraction` of
src/functions_cMyBPC.py (lines 57-87).  The numpy input `x` has shape
(species, time); we pass the list of its time columns, each column the
list of species values, so `np.sum(x,0)` at a column is the column sum.
An unrecognised species name leaves Python's `f` unassigned (`NameError`
at `return f`), modelled by `none`. -/
def fraction (x : List (List ℚ)) (species : String) (model : ℤ := 1) :
    Option (List ℚ) :=
  if model < 4 then
    if species = "0P" then
      some (x.map (fun c => c.getD 0 0 / c.sum))
    else if species = "1P" then
      some (x.map (fun c => (c.getD 1 0 + c.getD 4 0) / c.sum))
    else if species = "2P" then
      some (x.map (fun c => (c.getD 2 0 + c.getD 5 0) / c.sum))
    else if species = "3P" then
      some (x.map (fun c => (c.getD 3 0 + c.getD 6 0) / c.sum))
    else if species = "4P" then
      some (x.map (fun c => c.getD 7 0 / c.sum))
    else none
  else
    if species = "0P" then
      some (x.map (fun c => c.getD 0 0 / c.sum))
    else if species = "1P" then
      some (x.map (fun c => (c.getD 1 0 + c.getD 2 0 + c.getD 5 0) / c.sum))
    else if species = "2P" then
      some (x.map (fun c => (c.getD 3 0 + c.getD 6 0) / c.sum))
    else if species = "3P" then
      some (x.map (fun c => (c.getD 4 0 + c.getD 7 0) / c.sum))
    else if species = "4P" then
      some (x.map (fun c => c.getD 8 0 / c.sum))
    else none

/-- The interval signal generator `fromIntv` of src/functions_cMyBPC.py
(lines 264-268): walks through consecutive boundary pairs and returns `1`
on the first pair `(intv[i], intv[i+1])` with `intv[i] <= t <= intv[i+1]`,
else `0` after the loop.  A trailing unpaired boundary makes the Python
code read `intv[i+1]` out of range (`IndexError`), modelled by `none`. -/
def fromIntv (t : ℚ) : List ℚ → Option ℕ
  | [] => some 0
  | [_] => none
  | a :: b :: rest =>
    if a ≤ t ∧ t ≤ b then some 1 else fromIntv t rest

end CMyBPC

namespace CMyBPC

/-! ### Concrete data used by the witnesses -/

/-- Parameter set with every `k`, `K` and enzyme concentration equal to 1. -/
def paramsOnes : Params1 :=
  { k := fun _ => 1, K := fun _ => 1, PKA := 1, PKC := 1, PP1 := 1, PP2A := 1 }

/-- The all-ones state vector. -/
def stateOnes : Fin 8 → ℚ := fun _ => 1

/-- The calibration scenario parameters of the spec: all `k = 1.0`,
all `K = 1e-6`, enzymes `[1e-7, 0, 1e-7, 0]`. -/
def specParams : Params1 :=
  { k := fun _ => 1, K := fun _ => 1/1000000,
    PKA := 1/10000000, PKC := 0, PP1 := 1/10000000, PP2A := 0 }

/-- The calibration scenario initial condition `[20e-6,0,0,0,0,0,0,0]`. -/
def specICs : Fin 8 → ℚ := ![1/50000, 0, 0, 0, 0, 0, 0, 0]

/-- A one-species derivative function that is identically zero
(used to exercise the integrator and controller on concrete inputs). -/
def zeroModel : ℚ → (Fin 1 → ℚ) → Unit → Unit → Unit → (Fin 1 → ℚ) :=
  fun _ _ _ _ _ => fun _ => 0

/-- A one-species autonomous derivative function returning the state. -/
def idModel : ℚ → (Fin 1 → ℚ) → Unit → (Fin 1 → ℚ) := fun _ x _ => x

/-- The constant `-1` one-species state. -/
def negICs : Fin 1 → ℚ := fun _ => -1

/-- The trajectory rows produced by the non-autonomous integrator for the
zero derivative from `negICs` (every row equals `negICs`), used as
concrete data for the controller theorems. -/
def trajW (stepsize : ℚ) (m : ℕ) : List (Fin 1 → ℚ) :=
  (List.range m).map (odeTrajNA zeroModel negICs () () () 0 stepsize)

/-! ### Theorems -/

/-- The components of the derivative vector of `cMyBPC_model1` sum to zero:
each flux appears exactly once with positive and once with negative sign. -/
lemma cMyBPC_model1_sum_eq_zero (t : ℚ) (x : Fin 8 → ℚ) (p : Params1) :
    ∑ j, cMyBPC_model1 t x p j = 0 := by
  simp only [cMyBPC_model1, Fin.sum_univ_succ, Fin.sum_univ_zero,
    Matrix.cons_val_zero, Matrix.cons_val_succ]
  ring

/-- An RK4 step preserves the component sum whenever the derivative
function has componentwise sum zero everywhere. -/
lemma rk4Step_sum {n : ℕ} {P : Type}
    (f : ℚ → (Fin n → ℚ) → P → (Fin n → ℚ)) (p : P)
    (hf : ∀ t x, ∑ j, f t x p j = 0) (t stepsize : ℚ) (x : Fin n → ℚ) :
    ∑ j, rk4Step f p t stepsize x j = ∑ j, x j := by
  have hstage : ∀ (y : Fin n → ℚ), ∑ j, f t y p j * stepsize = 0 := by
    intro y
    rw [← Finset.sum_mul, hf, zero_mul]
  simp only [rk4Step]
  rw [Finset.sum_add_distrib]
  have hz :
      ∑ j, (f t x p j * stepsize
          + 2 * (f t (fun l => x l + f t x p l * stepsize / 2) p j * stepsize)
          + 2 * (f t (fun l => x l +
              f t (fun l2 => x l2 + f t x p l2 * stepsize / 2) p l * stepsize / 2)
              p j * stepsize)
          + f t (fun l => x l +
              f t (fun l2 => x l2 +
                f t (fun l3 => x l3 + f t x p l3 * stepsize / 2) p l2 * stepsize / 2)
              p l * stepsize) p j * stepsize) / 6 = 0 := by
    rw [← Finset.sum_div, Finset.sum_add_distrib, Finset.sum_add_distrib,
      Finset.sum_add_distrib, ← Finset.mul_sum, ← Finset.mul_sum,
      hstage, hstage, hstage, hstage]
    norm_num
  rw [hz, add_zero]

/-- Every row of the internal trajectory has the same component sum as
`ICs` when the derivative has componentwise sum zero everywhere. -/
lemma odeTraj_sum {n : ℕ} {P : Type}
    (f : ℚ → (Fin n → ℚ) → P → (Fin n → ℚ)) (ICs : Fin n → ℚ) (p : P)
    (hf : ∀ t x, ∑ j, f t x p j = 0) (t_0 stepsize : ℚ) (i : ℕ) :
    ∑ j, odeTraj f ICs p t_0 stepsize i j = ∑ j, ICs j := by
  induction i with
  | zero => rfl
  | succ i ih =>
      rw [odeTraj, rk4Step_sum f p hf, ih]

/-- Reading a successful `odeRK4` result back as the row map. -/
lemma odeRK4_eq_some {n : ℕ} {P : Type}
    {f : ℚ → (Fin n → ℚ) → P → (Fin n → ℚ)} {ICs : Fin n → ℚ} {p : P}
    {t_0 t_end stepsize : ℚ} {X : List (Fin n → ℚ)}
    (h : odeRK4 f ICs p t_0 t_end stepsize = some X) :
    X = (List.range ((⌊t_end / stepsize⌋).toNat)).map
      (odeTraj f ICs p t_0 stepsize) := by
  simp only [odeRK4] at h
  split at h
  · exact absurd h (by simp)
  · exact (Option.some_inj.mp h).symm

/-- A successful `odeRK4` run has a positive step count. -/
lemma odeRK4_steps_ne_zero {n : ℕ} {P : Type}
    {f : ℚ → (Fin n → ℚ) → P → (Fin n → ℚ)} {ICs : Fin n → ℚ} {p : P}
    {t_0 t_end stepsize : ℚ} {X : List (Fin n → ℚ)}
    (h : odeRK4 f ICs p t_0 t_end stepsize = some X) :
    (⌊t_end / stepsize⌋).toNat ≠ 0 := by
  simp only [odeRK4] at h
  intro h0
  rw [if_pos h0] at h
  exact absurd h (by simp)

/-- `odeRK4` succeeds whenever the step count is positive. -/
lemma odeRK4_steps_pos {n : ℕ} {P : Type}
    (f : ℚ → (Fin n → ℚ) → P → (Fin n → ℚ)) (ICs : Fin n → ℚ) (p : P)
    (t_0 t_end stepsize : ℚ) (h0 : (⌊t_end / stepsize⌋).toNat ≠ 0) :
    odeRK4 f ICs p t_0 t_end stepsize =
      some ((List.range ((⌊t_end / stepsize⌋).toNat)).map
        (odeTraj f ICs p t_0 stepsize)) := by
  simp only [odeRK4]
  rw [if_neg h0]

/-- Reading a successful `odeRK4na` result back as the row map. -/
lemma odeRK4na_eq_some {n : ℕ} {P S A : Type}
    {f : ℚ → (Fin n → ℚ) → P → S → A → (Fin n → ℚ)} {ICs : Fin n → ℚ}
    {p : P} {t_0 t_end stepsize : ℚ} {naFun : S} {naFunParams : A}
    {X : List (Fin n → ℚ)}
    (h : odeRK4na f ICs p t_0 t_end stepsize naFun naFunParams = some X) :
    X = (List.range ((⌊t_end / stepsize⌋).toNat)).map
      (odeTrajNA f ICs p naFun naFunParams t_0 stepsize) := by
  simp only [odeRK4na] at h
  split at h
  · exact absurd h (by simp)
  · exact (Option.some_inj.mp h).symm

/-- `odeRK4na` succeeds whenever the step count is positive. -/
lemma odeRK4na_steps_pos {n : ℕ} {P S A : Type}
    (f : ℚ → (Fin n → ℚ) → P → S → A → (Fin n → ℚ)) (ICs : Fin n → ℚ)
    (p : P) (t_0 t_end stepsize : ℚ) (naFun : S) (naFunParams : A)
    (h0 : (⌊t_end / stepsize⌋).toNat ≠ 0) :
    odeRK4na f ICs p t_0 t_end stepsize naFun naFunParams =
      some ((List.range ((⌊t_end / stepsize⌋).toNat)).map
        (odeTrajNA f ICs p naFun naFunParams t_0 stepsize)) := by
  simp only [odeRK4na]
  rw [if_neg h0]

/-- Element access on a mapped range, with default. -/
lemma getD_range_map {α : Type} [Inhabited α] (g : ℕ → α) (m i : ℕ)
    (h : i < m) :
    ((List.range m).map g).getD i default = g i := by
  rw [List.getD_eq_getElem?_getD]
  simp [List.getElem?_map, List.getElem?_range, h]

/-- C1: mass conservation.  For every parameter set, the eight components
of the derivative vector returned by `cMyBPC_model1` sum to zero at every
time and state where all rate-law denominators are nonzero (every flux
`v1..v30` appears once with `+` and once with `-`), and consequently every
column of any trajectory returned by `odeRK4` for this model has the same
component sum as the initial condition `ICs`. -/
theorem mass_conservation_model1 (p : Params1) :
    (∀ (t : ℚ) (x : Fin 8 → ℚ), model1DenomsNonzero p x →
      ∑ j, cMyBPC_model1 t x p j = 0) ∧
    (∀ (ICs : Fin 8 → ℚ) (t_0 t_end stepsize : ℚ) (X : List (Fin 8 → ℚ)),
      odeRK4 cMyBPC_model1 ICs p t_0 t_end stepsize = some X →
      ∀ c ∈ X, ∑ j, c j = ∑ j, ICs j) := by
  constructor
  · intro t x _
    exact cMyBPC_model1_sum_eq_zero t x p
  · intro ICs t0 tend sz X hX c hc
    rw [odeRK4_eq_some hX] at hc
    rcases List.mem_map.mp hc with ⟨i, _, rfl⟩
    exact odeTraj_sum _ _ _ (fun t x => cMyBPC_model1_sum_eq_zero t x p) _ _ i

/-- Witness for C1 at the all-ones parameter set and state: the
denominators are nonzero there, the derivative components sum to zero, and
the one-step trajectory columns all sum to the sum of `ICs`. -/
theorem mass_conservation_model1_witness :
    model1DenomsNonzero paramsOnes stateOnes ∧
    (∑ j, cMyBPC_model1 0 stateOnes paramsOnes j = 0) ∧
    odeRK4 cMyBPC_model1 stateOnes paramsOnes 0 1 1 = some [stateOnes] ∧
    (∀ c ∈ [stateOnes], ∑ j, c j = ∑ j, stateOnes j) := by
  have hden : model1DenomsNonzero paramsOnes stateOnes := by
    simp only [model1DenomsNonzero, K_pka, K_pkc, K_pp1, K_pp2a,
      paramsOnes, stateOnes]
    norm_num
  have hfl : (⌊(1:ℚ) / 1⌋).toNat = 1 := by
    rw [div_one, Int.floor_one]
    rfl
  have hsome : odeRK4 cMyBPC_model1 stateOnes paramsOnes 0 1 1
      = some [stateOnes] := by
    rw [odeRK4_steps_pos _ _ _ _ _ _ (by rw [hfl]; exact one_ne_zero), hfl]
    rfl
  exact ⟨hden, (mass_conservation_model1 paramsOnes).1 0 stateOnes hden,
    hsome,
    (mass_conservation_model1 paramsOnes).2 stateOnes 0 1 1 [stateOnes] hsome⟩

/-- C3: the RK4 stepping formula.  Whenever `odeRK4` (either branch)
returns a trajectory, its column `0` is `ICs` and each later column `i+1`
is obtained from column `i` by exactly
`k1 = f(t_i, x_i)*h`, `k2 = f(t_i, x_i+k1/2)*h`, `k3 = f(t_i, x_i+k2/2)*h`,
`k4 = f(t_i, x_i+k3)*h`, `x_next = x_i + (k1+2*k2+2*k3+k4)/6`, with all
four stage evaluations at the same time `t_i = t_0 + i*stepsize`; the
non-autonomous branch performs the same stepping with `naFun`,
`naFunParams` passed through to `f`. -/
theorem odeRK4_stepping :
    (∀ (n : ℕ) (P : Type) (f : ℚ → (Fin n → ℚ) → P → (Fin n → ℚ))
        (ICs : Fin n → ℚ) (p : P) (t_0 t_end stepsize : ℚ)
        (X : List (Fin n → ℚ)),
      odeRK4 f ICs p t_0 t_end stepsize = some X →
      X.getD 0 default = ICs ∧
      ∀ i, i + 1 < X.length →
        X.getD (i + 1) default =
          (let x_i := X.getD i default
           let t_i := t_0 + (i : ℚ) * stepsize
           let k1 := fun j => f t_i x_i p j * stepsize
           let k2 := fun j => f t_i (fun l => x_i l + k1 l / 2) p j * stepsize
           let k3 := fun j => f t_i (fun l => x_i l + k2 l / 2) p j * stepsize
           let k4 := fun j => f t_i (fun l => x_i l + k3 l) p j * stepsize
           fun j => x_i j + (k1 j + 2 * k2 j + 2 * k3 j + k4 j) / 6)) ∧
    (∀ (n : ℕ) (P S A : Type)
        (f : ℚ → (Fin n → ℚ) → P → S → A → (Fin n → ℚ))
        (ICs : Fin n → ℚ) (p : P) (t_0 t_end stepsize : ℚ)
        (naFun : S) (naFunParams : A) (X : List (Fin n → ℚ)),
      odeRK4na f ICs p t_0 t_end stepsize naFun naFunParams = some X →
      X.getD 0 default = ICs ∧
      ∀ i, i + 1 < X.length →
        X.getD (i + 1) default =
          (let x_i := X.getD i default
           let t_i := t_0 + (i : ℚ) * stepsize
           let k1 := fun j => f t_i x_i p naFun naFunParams j * stepsize
           let k2 := fun j =>
             f t_i (fun l => x_i l + k1 l / 2) p naFun naFunParams j * stepsize
           let k3 := fun j =>
             f t_i (fun l => x_i l + k2 l / 2) p naFun naFunParams j * stepsize
           let k4 := fun j =>
             f t_i (fun l => x_i l + k3 l) p naFun naFunParams j * stepsize
           fun j => x_i j + (k1 j + 2 * k2 j + 2 * k3 j + k4 j) / 6)) := by
  constructor
  · intro n P f ICs p t_0 t_end stepsize X hX
    have hpos := Nat.pos_of_ne_zero (odeRK4_steps_ne_zero hX)
    rw [odeRK4_eq_some hX]
    constructor
    · rw [getD_range_map _ _ _ hpos]
      rfl
    · intro i hi
      rw [List.length_map, List.length_range] at hi
      rw [getD_range_map _ _ _ hi,
        getD_range_map _ _ _ (Nat.lt_of_succ_lt hi)]
      rfl
  · intro n P S A f ICs p t_0 t_end stepsize naFun naFunParams X hX
    have hpos : 0 < (⌊t_end / stepsize⌋).toNat := by
      rcases Nat.eq_zero_or_pos ((⌊t_end / stepsize⌋).toNat) with h0 | h0
      · simp only [odeRK4na, h0, if_pos] at hX
        exact absurd hX (by simp)
      · exact h0
    rw [odeRK4na_eq_some hX]
    constructor
    · rw [getD_range_map _ _ _ hpos]
      rfl
    · intro i hi
      rw [List.length_map, List.length_range] at hi
      rw [getD_range_map _ _ _ hi,
        getD_range_map _ _ _ (Nat.lt_of_succ_lt hi)]
      rfl

/-- Witness for C3: a two-column run of `odeRK4` on the identity
derivative, whose column `0` is the initial condition and whose column `1`
satisfies the stepping formula. -/
theorem odeRK4_stepping_witness :
    odeRK4 idModel (fun _ => (1:ℚ)) () 0 2 1 =
      some ((List.range ((⌊(2:ℚ) / 1⌋).toNat)).map
        (odeTraj idModel (fun _ => (1:ℚ)) () 0 1)) ∧
    ((List.range ((⌊(2:ℚ) / 1⌋).toNat)).map
      (odeTraj idModel (fun _ => (1:ℚ)) () 0 1)).getD 0 default
        = (fun _ => (1:ℚ)) := by
  have hfl : (⌊(2:ℚ) / 1⌋).toNat = 2 := by
    rw [div_one]
    norm_num
    rfl
  have hsome : odeRK4 idModel (fun _ => (1:ℚ)) () 0 2 1 =
      some ((List.range ((⌊(2:ℚ) / 1⌋).toNat)).map
        (odeTraj idModel (fun _ => (1:ℚ)) () 0 1)) :=
    odeRK4_steps_pos _ _ _ _ _ _ (by rw [hfl]; exact two_ne_zero)
  exact ⟨hsome,
    (odeRK4_stepping.1 1 Unit idModel (fun _ => 1) () 0 2 1 _ hsome).1⟩

/-- C4 counterexample: at `t_end = 1/2 > 0` and `stepsize = 1 > 0` the
step count `int(t_end/stepsize)` is zero, the assignment `x[0,:] = ICs`
is out of bounds, and `odeRK4` produces no trajectory at all — so the
claim's shape statement fails for these positive arguments. -/
theorem odeRK4_shape_counterexample :
    (0:ℚ) < 1/2 ∧ (0:ℚ) < 1 ∧
    odeRK4 idModel (fun _ => (1:ℚ)) () 0 (1/2) 1 = none := by
  refine ⟨by norm_num, by norm_num, ?_⟩
  have h0 : (⌊(1:ℚ)/2 / 1⌋).toNat = 0 := by
    rw [div_one]
    norm_num
  simp only [odeRK4, h0, if_pos]

/-- C4 (amended): for every `0 < stepsize ≤ t_end`, `odeRK4` performs
`steps = floor(t_end/stepsize)` steps and returns a trajectory of `steps`
columns whose column `0` is `ICs`; in the spec's concrete scenario the
integration horizon passed by the caller is `t_end + 1 = 3601` at `h = 1`,
giving shape `(8, 3601)`. -/
theorem odeRK4_shape :
    (∀ (n : ℕ) (P : Type) (f : ℚ → (Fin n → ℚ) → P → (Fin n → ℚ))
        (ICs : Fin n → ℚ) (p : P) (t_0 t_end stepsize : ℚ),
      0 < stepsize → stepsize ≤ t_end →
      ∃ X, odeRK4 f ICs p t_0 t_end stepsize = some X ∧
        X.length = (⌊t_end / stepsize⌋).toNat ∧ X.getD 0 default = ICs) ∧
    (∃ X, odeRK4 cMyBPC_model1 specICs specParams 0 3601 1 = some X ∧
      X.length = 3601 ∧ X.getD 0 default = specICs) := by
  have main : ∀ (n : ℕ) (P : Type) (f : ℚ → (Fin n → ℚ) → P → (Fin n → ℚ))
      (ICs : Fin n → ℚ) (p : P) (t_0 t_end stepsize : ℚ),
      0 < stepsize → stepsize ≤ t_end →
      ∃ X, odeRK4 f ICs p t_0 t_end stepsize = some X ∧
        X.length = (⌊t_end / stepsize⌋).toNat ∧ X.getD 0 default = ICs := by
    intro n P f ICs p t_0 t_end stepsize hs hle
    have hq : (1:ℚ) ≤ t_end / stepsize := (one_le_div hs).mpr hle
    have hfl : 1 ≤ ⌊t_end / stepsize⌋ := by
      rw [Int.le_floor]
      exact_mod_cast hq
    have h0 : (⌊t_end / stepsize⌋).toNat ≠ 0 := by omega
    refine ⟨_, odeRK4_steps_pos f ICs p t_0 t_end stepsize h0, ?_, ?_⟩
    · rw [List.length_map, List.length_range]
    · rw [getD_range_map _ _ _ (Nat.pos_of_ne_zero h0)]
      rfl
  refine ⟨main, ?_⟩
  obtain ⟨X, hX, hlen, hcol⟩ := main 8 Params1 cMyBPC_model1 specICs
    specParams 0 3601 1 (by norm_num) (by norm_num)
  refine ⟨X, hX, ?_, hcol⟩
  rw [hlen, div_one]
  norm_num
  rfl

/-- Witness for the amended C4 at `t_end = 2`, `stepsize = 1`: both
hypotheses hold and a two-column trajectory starting at `ICs` is
returned. -/
theorem odeRK4_shape_witness :
    (0:ℚ) < 1 ∧ (1:ℚ) ≤ 2 ∧
    ∃ X, odeRK4 idModel (fun _ => (1:ℚ)) () 0 2 1 = some X ∧
      X.length = (⌊(2:ℚ) / 1⌋).toNat ∧ X.getD 0 default = (fun _ => (1:ℚ)) :=
  ⟨by norm_num, by norm_num,
    odeRK4_shape.1 1 Unit idModel (fun _ => (1:ℚ)) () 0 2 1
      (by norm_num) (by norm_num)⟩

/-- C5: competitive rate law with double-counting removal.  When the
Michaelis constants are nonzero, every rate
`v = k*[enzyme]*[substrate]/(K*(1+Kappa-[substrate]/K)+[substrate])` of
`cMyBPC_model1` has a denominator equal to `K*(1 + s)+[substrate]`, where
`s` is the shared competition sum with the substrate's own `K`-term
removed: the subtraction exactly cancels that term. -/
theorem model1_competitive_rate_laws (p : Params1) (x : Fin 8 → ℚ)
    (hK : ∀ i, p.K i ≠ 0) :
    v1 p x = p.k 0 * p.PKA * x 0 /
      (p.K 0 * (1 + (x 1 / p.K 3 + x 2 / p.K 6 + x 4 / p.K 21
        + x 5 / p.K 24 + x 6 / p.K 27)) + x 0) ∧
    v4 p x = p.k 3 * p.PKA * x 1 /
      (p.K 3 * (1 + (x 0 / p.K 0 + x 2 / p.K 6 + x 4 / p.K 21
        + x 5 / p.K 24 + x 6 / p.K 27)) + x 1) ∧
    v7 p x = p.k 6 * p.PKA * x 2 /
      (p.K 6 * (1 + (x 0 / p.K 0 + x 1 / p.K 3 + x 4 / p.K 21
        + x 5 / p.K 24 + x 6 / p.K 27)) + x 2) ∧
    v22 p x = p.k 21 * p.PKA * x 4 /
      (p.K 21 * (1 + (x 0 / p.K 0 + x 1 / p.K 3 + x 2 / p.K 6
        + x 5 / p.K 24 + x 6 / p.K 27)) + x 4) ∧
    v25 p x = p.k 24 * p.PKA * x 5 /
      (p.K 24 * (1 + (x 0 / p.K 0 + x 1 / p.K 3 + x 2 / p.K 6
        + x 4 / p.K 21 + x 6 / p.K 27)) + x 5) ∧
    v28 p x = p.k 27 * p.PKA * x 6 /
      (p.K 27 * (1 + (x 0 / p.K 0 + x 1 / p.K 3 + x 2 / p.K 6
        + x 4 / p.K 21 + x 5 / p.K 24)) + x 6) ∧
    v10 p x = p.k 9 * p.PKC * x 0 /
      (p.K 9 * (1 + (x 1 / p.K 12 + x 2 / p.K 15 + x 3 / p.K 18)) + x 0) ∧
    v13 p x = p.k 12 * p.PKC * x 1 /
      (p.K 12 * (1 + (x 0 / p.K 9 + x 2 / p.K 15 + x 3 / p.K 18)) + x 1) ∧
    v16 p x = p.k 15 * p.PKC * x 2 /
      (p.K 15 * (1 + (x 0 / p.K 9 + x 1 / p.K 12 + x 3 / p.K 18)) + x 2) ∧
    v19 p x = p.k 18 * p.PKC * x 3 /
      (p.K 18 * (1 + (x 0 / p.K 9 + x 1 / p.K 12 + x 2 / p.K 15)) + x 3) ∧
    v2 p x = p.k 1 * p.PP1 * x 1 /
      (p.K 1 * (1 + (x 2 / p.K 4 + x 3 / p.K 7 + x 4 / p.K 10
        + x 5 / p.K 13 + x 5 / p.K 22 + x 6 / p.K 16 + x 6 / p.K 25
        + x 7 / p.K 19 + x 7 / p.K 28)) + x 1) ∧
    v5 p x = p.k 4 * p.PP1 * x 2 /
      (p.K 4 * (1 + (x 1 / p.K 1 + x 3 / p.K 7 + x 4 / p.K 10
        + x 5 / p.K 13 + x 5 / p.K 22 + x 6 / p.K 16 + x 6 / p.K 25
        + x 7 / p.K 19 + x 7 / p.K 28)) + x 2) ∧
    v8 p x = p.k 7 * p.PP1 * x 3 /
      (p.K 7 * (1 + (x 1 / p.K 1 + x 2 / p.K 4 + x 4 / p.K 10
        + x 5 / p.K 13 + x 5 / p.K 22 + x 6 / p.K 16 + x 6 / p.K 25
        + x 7 / p.K 19 + x 7 / p.K 28)) + x 3) ∧
    v11 p x = p.k 10 * p.PP1 * x 4 /
      (p.K 10 * (1 + (x 1 / p.K 1 + x 2 / p.K 4 + x 3 / p.K 7
        + x 5 / p.K 13 + x 5 / p.K 22 + x 6 / p.K 16 + x 6 / p.K 25
        + x 7 / p.K 19 + x 7 / p.K 28)) + x 4) ∧
    v14 p x = p.k 13 * p.PP1 * x 5 /
      (p.K 13 * (1 + (x 1 / p.K 1 + x 2 / p.K 4 + x 3 / p.K 7
        + x 4 / p.K 10 + x 5 / p.K 22 + x 6 / p.K 16 + x 6 / p.K 25
        + x 7 / p.K 19 + x 7 / p.K 28)) + x 5) ∧
    v17 p x = p.k 16 * p.PP1 * x 6 /
      (p.K 16 * (1 + (x 1 / p.K 1 + x 2 / p.K 4 + x 3 / p.K 7
        + x 4 / p.K 10 + x 5 / p.K 13 + x 5 / p.K 22 + x 6 / p.K 25
        + x 7 / p.K 19 + x 7 / p.K 28)) + x 6) ∧
    v20 p x = p.k 19 * p.PP1 * x 7 /
      (p.K 19 * (1 + (x 1 / p.K 1 + x 2 / p.K 4 + x 3 / p.K 7
        + x 4 / p.K 10 + x 5 / p.K 13 + x 5 / p.K 22 + x 6 / p.K 16
        + x 6 / p.K 25 + x 7 / p.K 28)) + x 7) ∧
    v23 p x = p.k 22 * p.PP1 * x 5 /
      (p.K 22 * (1 + (x 1 / p.K 1 + x 2 / p.K 4 + x 3 / p.K 7
        + x 4 / p.K 10 + x 5 / p.K 13 + x 6 / p.K 16 + x 6 / p.K 25
        + x 7 / p.K 19 + x 7 / p.K 28)) + x 5) ∧
    v26 p x = p.k 25 * p.PP1 * x 6 /
      (p.K 25 * (1 + (x 1 / p.K 1 + x 2 / p.K 4 + x 3 / p.K 7
        + x 4 / p.K 10 + x 5 / p.K 13 + x 5 / p.K 22 + x 6 / p.K 16
        + x 7 / p.K 19 + x 7 / p.K 28)) + x 6) ∧
    v29 p x = p.k 28 * p.PP1 * x 7 /
      (p.K 28 * (1 + (x 1 / p.K 1 + x 2 / p.K 4 + x 3 / p.K 7
        + x 4 / p.K 10 + x 5 / p.K 13 + x 5 / p.K 22 + x 6 / p.K 16
        + x 6 / p.K 25 + x 7 / p.K 19)) + x 7) ∧
    v3 p x = p.k 2 * p.PP2A * x 1 /
      (p.K 2 * (1 + (x 2 / p.K 5 + x 3 / p.K 8 + x 4 / p.K 11
        + x 5 / p.K 14 + x 5 / p.K 23 + x 6 / p.K 17 + x 6 / p.K 26
        + x 7 / p.K 20 + x 7 / p.K 29)) + x 1) ∧
    v6 p x = p.k 5 * p.PP2A * x 2 /
      (p.K 5 * (1 + (x 1 / p.K 2 + x 3 / p.K 8 + x 4 / p.K 11
        + x 5 / p.K 14 + x 5 / p.K 23 + x 6 / p.K 17 + x 6 / p.K 26
        + x 7 / p.K 20 + x 7 / p.K 29)) + x 2) ∧
    v9 p x = p.k 8 * p.PP2A * x 3 /
      (p.K 8 * (1 + (x 1 / p.K 2 + x 2 / p.K 5 + x 4 / p.K 11
        + x 5 / p.K 14 + x 5 / p.K 23 + x 6 / p.K 17 + x 6 / p.K 26
        + x 7 / p.K 20 + x 7 / p.K 29)) + x 3) ∧
    v12 p x = p.k 11 * p.PP2A * x 4 /
      (p.K 11 * (1 + (x 1 / p.K 2 + x 2 / p.K 5 + x 3 / p.K 8
        + x 5 / p.K 14 + x 5 / p.K 23 + x 6 / p.K 17 + x 6 / p.K 26
        + x 7 / p.K 20 + x 7 / p.K 29)) + x 4) ∧
    v15 p x = p.k 14 * p.PP2A * x 5 /
      (p.K 14 * (1 + (x 1 / p.K 2 + x 2 / p.K 5 + x 3 / p.K 8
        + x 4 / p.K 11 + x 5 / p.K 23 + x 6 / p.K 17 + x 6 / p.K 26
        + x 7 / p.K 20 + x 7 / p.K 29)) + x 5) ∧
    v18 p x = p.k 17 * p.PP2A * x 6 /
      (p.K 17 * (1 + (x 1 / p.K 2 + x 2 / p.K 5 + x 3 / p.K 8
        + x 4 / p.K 11 + x 5 / p.K 14 + x 5 / p.K 23 + x 6 / p.K 26
        + x 7 / p.K 20 + x 7 / p.K 29)) + x 6) ∧
    v21 p x = p.k 20 * p.PP2A * x 7 /
      (p.K 20 * (1 + (x 1 / p.K 2 + x 2 / p.K 5 + x 3 / p.K 8
        + x 4 / p.K 11 + x 5 / p.K 14 + x 5 / p.K 23 + x 6 / p.K 17
        + x 6 / p.K 26 + x 7 / p.K 29)) + x 7) ∧
    v24 p x = p.k 23 * p.PP2A * x 5 /
      (p.K 23 * (1 + (x 1 / p.K 2 + x 2 / p.K 5 + x 3 / p.K 8
        + x 4 / p.K 11 + x 5 / p.K 14 + x 6 / p.K 17 + x 6 / p.K 26
        + x 7 / p.K 20 + x 7 / p.K 29)) + x 5) ∧
    v27 p x = p.k 26 * p.PP2A * x 6 /
      (p.K 26 * (1 + (x 1 / p.K 2 + x 2 / p.K 5 + x 3 / p.K 8
        + x 4 / p.K 11 + x 5 / p.K 14 + x 5 / p.K 23 + x 6 / p.K 17
        + x 7 / p.K 20 + x 7 / p.K 29)) + x 6) ∧
    v30 p x = p.k 29 * p.PP2A * x 7 /
      (p.K 29 * (1 + (x 1 / p.K 2 + x 2 / p.K 5 + x 3 / p.K 8
        + x 4 / p.K 11 + x 5 / p.K 14 + x 5 / p.K 23 + x 6 / p.K 17
        + x 6 / p.K 26 + x 7 / p.K 20)) + x 7) := by
  refine ⟨?_, ?_, ?_, ?_, ?_, ?_, ?_, ?_, ?_, ?_, ?_, ?_, ?_, ?_, ?_,
    ?_, ?_, ?_, ?_, ?_, ?_, ?_, ?_, ?_, ?_, ?_, ?_, ?_, ?_, ?_⟩ <;>
    simp only [v1, v2, v3, v4, v5, v6, v7, v8, v9, v10, v11, v12, v13,
      v14, v15, v16, v17, v18, v19, v20, v21, v22, v23, v24, v25, v26,
      v27, v28, v29, v30, K_pka, K_pkc, K_pp1, K_pp2a] <;>
    ring

/-- Witness for C5 at the all-ones parameters and state: the Michaelis
constants are nonzero and the rewritten form of `v1` holds. -/
theorem model1_competitive_rate_laws_witness :
    (∀ i, paramsOnes.K i ≠ 0) ∧
    v1 paramsOnes stateOnes = paramsOnes.k 0 * paramsOnes.PKA * stateOnes 0 /
      (paramsOnes.K 0 * (1 + (stateOnes 1 / paramsOnes.K 3
        + stateOnes 2 / paramsOnes.K 6 + stateOnes 4 / paramsOnes.K 21
        + stateOnes 5 / paramsOnes.K 24 + stateOnes 6 / paramsOnes.K 27))
        + stateOnes 0) := by
  have hK : ∀ i, paramsOnes.K i ≠ 0 := by
    intro i
    simp [paramsOnes]
  exact ⟨hK, (model1_competitive_rate_laws paramsOnes stateOnes hK).1⟩

/-- On even-length boundary lists, `fromIntv` returns `some 1` exactly
when `t` lies (inclusively) in one of the consecutive boundary pairs, and
`some 0` otherwise. -/
lemma fromIntv_pairs (t : ℚ) :
    ∀ (l : List ℚ), l.length % 2 = 0 →
      (fromIntv t l = some 1 ↔
        ∃ j, 2 * j + 1 < l.length ∧
          l.getD (2 * j) 0 ≤ t ∧ t ≤ l.getD (2 * j + 1) 0) ∧
      (fromIntv t l = some 1 ∨ fromIntv t l = some 0)
  | [] => by
    intro _
    refine ⟨?_, Or.inr rfl⟩
    simp only [fromIntv, List.length_nil]
    constructor
    · intro h
      exact absurd h (by simp)
    · rintro ⟨j, hj, -⟩
      omega
  | [a] => by
    intro h
    simp at h
  | a :: b :: rest => by
    intro hlen
    have hrest : rest.length % 2 = 0 := by
      simp only [List.length_cons] at hlen
      omega
    obtain ⟨ih_iff, ih_tot⟩ := fromIntv_pairs t rest hrest
    by_cases hab : a ≤ t ∧ t ≤ b
    · refine ⟨?_, Or.inl (by simp [fromIntv, hab])⟩
      simp only [fromIntv, if_pos hab, List.length_cons]
      constructor
      · intro _
        exact ⟨0, by omega, by simpa using hab.1, by simpa using hab.2⟩
      · intro _
        trivial
    · have hstep : fromIntv t (a :: b :: rest) = fromIntv t rest := by
        simp [fromIntv, hab]
      rw [hstep]
      refine ⟨?_, ih_tot⟩
      rw [ih_iff]
      constructor
      · rintro ⟨j, hj, h1, h2⟩
        refine ⟨j + 1, ?_, ?_, ?_⟩
        · simp only [List.length_cons]
          omega
        · have : 2 * (j + 1) = 2 * j + 1 + 1 := by omega
          rw [this, List.getD_cons_succ, List.getD_cons_succ]
          exact h1
        · have : 2 * (j + 1) + 1 = 2 * j + 1 + 1 + 1 := by omega
          rw [this, List.getD_cons_succ, List.getD_cons_succ]
          exact h2
      · rintro ⟨j, hj, h1, h2⟩
        match j with
        | 0 =>
          exact absurd ⟨by simpa using h1, by simpa using h2⟩ hab
        | j + 1 =>
          refine ⟨j, ?_, ?_, ?_⟩
          · simp only [List.length_cons] at hj
            omega
          · have : 2 * (j + 1) = 2 * j + 1 + 1 := by omega
            rw [this, List.getD_cons_succ, List.getD_cons_succ] at h1
            exact h1
          · have : 2 * (j + 1) + 1 = 2 * j + 1 + 1 + 1 := by omega
            rw [this, List.getD_cons_succ, List.getD_cons_succ] at h2
            exact h2

/-- C8: boundary inclusivity of the signal generator.  On an even-length
boundary list, `fromIntv` returns `1` iff some pair `intv[2j] <= t <=
intv[2j+1]` contains `t` (inclusive at both endpoints) and `0` otherwise;
in particular both endpoints of `[start, stop]` give `1` and any
`stop + eps` with `eps > 0` gives `0`. -/
theorem fromIntv_inclusive :
    (∀ (intv : List ℚ) (t : ℚ), intv.length % 2 = 0 →
      ((∃ j, 2 * j + 1 < intv.length ∧
          intv.getD (2 * j) 0 ≤ t ∧ t ≤ intv.getD (2 * j + 1) 0) →
        fromIntv t intv = some 1) ∧
      ((¬ ∃ j, 2 * j + 1 < intv.length ∧
          intv.getD (2 * j) 0 ≤ t ∧ t ≤ intv.getD (2 * j + 1) 0) →
        fromIntv t intv = some 0)) ∧
    (∀ start stop : ℚ, start ≤ stop →
      fromIntv start [start, stop] = some 1 ∧
      fromIntv stop [start, stop] = some 1) ∧
    (∀ start stop eps : ℚ, 0 < eps →
      fromIntv (stop + eps) [start, stop] = some 0) := by
  refine ⟨?_, ?_, ?_⟩
  · intro intv t hlen
    obtain ⟨hiff, htot⟩ := fromIntv_pairs t intv hlen
    constructor
    · exact hiff.mpr
    · intro hno
      rcases htot with h1 | h0
      · exact absurd (hiff.mp h1) hno
      · exact h0
  · intro start stop hss
    constructor
    · simp [fromIntv, le_refl, hss]
    · simp [fromIntv, le_refl, hss]
  · intro start stop eps heps
    have hnot : ¬(start ≤ stop + eps ∧ stop + eps ≤ stop) := by
      rintro ⟨-, h2⟩
      linarith
    have hstep : fromIntv (stop + eps) [start, stop]
        = if start ≤ stop + eps ∧ stop + eps ≤ stop then some 1
          else fromIntv (stop + eps) [] := rfl
    rw [hstep, if_neg hnot]
    rfl

/-- Witness for C8: on the interval list `[0, 1]` (even length) the point
`1/2` is inside and `fromIntv` returns `1`; the endpoint and
past-the-endpoint cases at `start = 0`, `stop = 1`, `eps = 1`. -/
theorem fromIntv_inclusive_witness :
    ([(0:ℚ), 1].length % 2 = 0) ∧
    fromIntv (1/2) [(0:ℚ), 1] = some 1 ∧
    ((0:ℚ) ≤ 1) ∧
    fromIntv 0 [(0:ℚ), 1] = some 1 ∧
    fromIntv 1 [(0:ℚ), 1] = some 1 ∧
    fromIntv (1 + 1) [(0:ℚ), 1] = some 0 := by
  have hlen : ([(0:ℚ), 1].length % 2 = 0) := by simp
  have h1 : fromIntv (1/2) [(0:ℚ), 1] = some 1 :=
    (fromIntv_inclusive.1 [(0:ℚ), 1] (1/2) hlen).1
      ⟨0, by simp, by norm_num, by norm_num⟩
  have hend := fromIntv_inclusive.2.1 (0:ℚ) 1 (by norm_num)
  have hpast := fromIntv_inclusive.2.2 (0:ℚ) 1 1 (by norm_num)
  exact ⟨hlen, h1, by norm_num, hend.1, hend.2, hpast⟩

/-- Element access with default on a mapped list, in range. -/
lemma getD_map_lt {α β : Type} (g : α → β) (x : List α) (i : ℕ) (d : β)
    (h : i < x.length) :
    (x.map g).getD i d = g x[i] := by
  rw [List.getD_eq_getElem?_getD, List.getElem?_map,
    List.getElem?_eq_getElem h]
  rfl

/-- The eight defaulted entries of a length-8 list sum to its sum. -/
lemma getD_sum_eight (c : List ℚ) (h : c.length = 8) :
    c.getD 0 0 + c.getD 1 0 + c.getD 2 0 + c.getD 3 0 + c.getD 4 0
      + c.getD 5 0 + c.getD 6 0 + c.getD 7 0 = c.sum := by
  rcases c with - | ⟨a0, c⟩
  · simp at h
  rcases c with - | ⟨a1, c⟩
  · simp at h
  rcases c with - | ⟨a2, c⟩
  · simp at h
  rcases c with - | ⟨a3, c⟩
  · simp at h
  rcases c with - | ⟨a4, c⟩
  · simp at h
  rcases c with - | ⟨a5, c⟩
  · simp at h
  rcases c with - | ⟨a6, c⟩
  · simp at h
  rcases c with - | ⟨a7, c⟩
  · simp at h
  rcases c with - | ⟨a8, c⟩
  · simp [List.getD]
    ring
  · simp at h

/-- The nine defaulted entries of a length-9 list sum to its sum. -/
lemma getD_sum_nine (c : List ℚ) (h : c.length = 9) :
    c.getD 0 0 + c.getD 1 0 + c.getD 2 0 + c.getD 3 0 + c.getD 4 0
      + c.getD 5 0 + c.getD 6 0 + c.getD 7 0 + c.getD 8 0 = c.sum := by
  rcases c with - | ⟨a0, c⟩
  · simp at h
  rcases c with - | ⟨a1, c⟩
  · simp at h
  rcases c with - | ⟨a2, c⟩
  · simp at h
  rcases c with - | ⟨a3, c⟩
  · simp at h
  rcases c with - | ⟨a4, c⟩
  · simp at h
  rcases c with - | ⟨a5, c⟩
  · simp at h
  rcases c with - | ⟨a6, c⟩
  · simp at h
  rcases c with - | ⟨a7, c⟩
  · simp at h
  rcases c with - | ⟨a8, c⟩
  · simp at h
  rcases c with - | ⟨a9, c⟩
  · simp [List.getD]
    ring
  · simp at h

/-- C9: the species fractions partition the state.  At every trajectory
column with nonzero column sum, the five fractions returned by `fraction`
for `0P`..`4P` sum to one, for `model < 4` (8 rows, grouped
`{0},{1,4},{2,5},{3,6},{7}`) and for `model >= 4` (9 rows, grouped
`{0},{1,2,5},{3,6},{4,7},{8}`). -/
theorem fraction_partition :
    (∀ (m : ℤ) (x : List (List ℚ)), m < 4 →
      (∀ c ∈ x, c.length = 8 ∧ c.sum ≠ 0) →
      ∃ f0 f1 f2 f3 f4,
        fraction x "0P" m = some f0 ∧ fraction x "1P" m = some f1 ∧
        fraction x "2P" m = some f2 ∧ fraction x "3P" m = some f3 ∧
        fraction x "4P" m = some f4 ∧
        ∀ i, i < x.length →
          f0.getD i 0 + f1.getD i 0 + f2.getD i 0 + f3.getD i 0
            + f4.getD i 0 = 1) ∧
    (∀ (m : ℤ) (x : List (List ℚ)), 4 ≤ m →
      (∀ c ∈ x, c.length = 9 ∧ c.sum ≠ 0) →
      ∃ f0 f1 f2 f3 f4,
        fraction x "0P" m = some f0 ∧ fraction x "1P" m = some f1 ∧
        fraction x "2P" m = some f2 ∧ fraction x "3P" m = some f3 ∧
        fraction x "4P" m = some f4 ∧
        ∀ i, i < x.length →
          f0.getD i 0 + f1.getD i 0 + f2.getD i 0 + f3.getD i 0
            + f4.getD i 0 = 1) := by
  constructor
  · intro m x hm hx
    refine ⟨x.map (fun c => c.getD 0 0 / c.sum),
      x.map (fun c => (c.getD 1 0 + c.getD 4 0) / c.sum),
      x.map (fun c => (c.getD 2 0 + c.getD 5 0) / c.sum),
      x.map (fun c => (c.getD 3 0 + c.getD 6 0) / c.sum),
      x.map (fun c => c.getD 7 0 / c.sum),
      by simp [fraction, hm], by simp [fraction, hm],
      by simp [fraction, hm], by simp [fraction, hm],
      by simp [fraction, hm], ?_⟩
    intro i hi
    rw [getD_map_lt _ _ _ _ hi, getD_map_lt _ _ _ _ hi,
      getD_map_lt _ _ _ _ hi, getD_map_lt _ _ _ _ hi,
      getD_map_lt _ _ _ _ hi]
    obtain ⟨hc8, hcs⟩ := hx (x[i]) (List.getElem_mem hi)
    rw [div_add_div_same, div_add_div_same, div_add_div_same,
      div_add_div_same, div_eq_one_iff_eq hcs]
    have := getD_sum_eight (x[i]) hc8
    linarith
  · intro m x hm hx
    have hm4 : ¬ m < 4 := by omega
    refine ⟨x.map (fun c => c.getD 0 0 / c.sum),
      x.map (fun c => (c.getD 1 0 + c.getD 2 0 + c.getD 5 0) / c.sum),
      x.map (fun c => (c.getD 3 0 + c.getD 6 0) / c.sum),
      x.map (fun c => (c.getD 4 0 + c.getD 7 0) / c.sum),
      x.map (fun c => c.getD 8 0 / c.sum),
      by simp [fraction, hm4], by simp [fraction, hm4],
      by simp [fraction, hm4], by simp [fraction, hm4],
      by simp [fraction, hm4], ?_⟩
    intro i hi
    rw [getD_map_lt _ _ _ _ hi, getD_map_lt _ _ _ _ hi,
      getD_map_lt _ _ _ _ hi, getD_map_lt _ _ _ _ hi,
      getD_map_lt _ _ _ _ hi]
    obtain ⟨hc9, hcs⟩ := hx (x[i]) (List.getElem_mem hi)
    rw [div_add_div_same, div_add_div_same, div_add_div_same,
      div_add_div_same, div_eq_one_iff_eq hcs]
    have := getD_sum_nine (x[i]) hc9
    linarith

/-- Witness for C9: a single all-ones column of 8 rows (model 1) and of 9
rows (model 4). -/
theorem fraction_partition_witness :
    ((1:ℤ) < 4 ∧ (∀ c ∈ [[(1:ℚ),1,1,1,1,1,1,1]], c.length = 8 ∧ c.sum ≠ 0) ∧
      ∃ f0 f1 f2 f3 f4,
        fraction [[(1:ℚ),1,1,1,1,1,1,1]] "0P" 1 = some f0 ∧
        fraction [[(1:ℚ),1,1,1,1,1,1,1]] "1P" 1 = some f1 ∧
        fraction [[(1:ℚ),1,1,1,1,1,1,1]] "2P" 1 = some f2 ∧
        fraction [[(1:ℚ),1,1,1,1,1,1,1]] "3P" 1 = some f3 ∧
        fraction [[(1:ℚ),1,1,1,1,1,1,1]] "4P" 1 = some f4 ∧
        ∀ i, i < ([[(1:ℚ),1,1,1,1,1,1,1]] : List (List ℚ)).length →
          f0.getD i 0 + f1.getD i 0 + f2.getD i 0 + f3.getD i 0
            + f4.getD i 0 = 1) ∧
    ((4:ℤ) ≤ 4 ∧ (∀ c ∈ [[(1:ℚ),1,1,1,1,1,1,1,1]], c.length = 9 ∧ c.sum ≠ 0) ∧
      ∃ f0 f1 f2 f3 f4,
        fraction [[(1:ℚ),1,1,1,1,1,1,1,1]] "0P" 4 = some f0 ∧
        fraction [[(1:ℚ),1,1,1,1,1,1,1,1]] "1P" 4 = some f1 ∧
        fraction [[(1:ℚ),1,1,1,1,1,1,1,1]] "2P" 4 = some f2 ∧
        fraction [[(1:ℚ),1,1,1,1,1,1,1,1]] "3P" 4 = some f3 ∧
        fraction [[(1:ℚ),1,1,1,1,1,1,1,1]] "4P" 4 = some f4 ∧
        ∀ i, i < ([[(1:ℚ),1,1,1,1,1,1,1,1]] : List (List ℚ)).length →
          f0.getD i 0 + f1.getD i 0 + f2.getD i 0 + f3.getD i 0
            + f4.getD i 0 = 1) := by
  have h8 : ∀ c ∈ [[(1:ℚ),1,1,1,1,1,1,1]], c.length = 8 ∧ c.sum ≠ 0 := by
    intro c hc
    rw [List.mem_singleton] at hc
    subst hc
    norm_num
  have h9 : ∀ c ∈ [[(1:ℚ),1,1,1,1,1,1,1,1]], c.length = 9 ∧ c.sum ≠ 0 := by
    intro c hc
    rw [List.mem_singleton] at hc
    subst hc
    norm_num
  exact ⟨⟨by norm_num, h8,
      fraction_partition.1 1 [[(1:ℚ),1,1,1,1,1,1,1]] (by norm_num) h8⟩,
    ⟨le_refl 4, h9,
      fraction_partition.2 4 [[(1:ℚ),1,1,1,1,1,1,1,1]] (le_refl 4) h9⟩⟩

/-- Length of a numpy stride slice. -/
lemma numpyStride_length {α : Type} [Inhabited α] (m : ℕ) (X : List α) :
    (numpyStride m X).length = (X.length + m - 1) / m := by
  simp [numpyStride]

/-- Entries of a numpy stride slice. -/
lemma numpyStride_getD {α : Type} [Inhabited α] (m : ℕ) (X : List α)
    (i : ℕ) (h : i < (X.length + m - 1) / m) :
    (numpyStride m X).getD i default = X.getD (m * i) default := by
  unfold numpyStride
  rw [getD_range_map _ _ _ h]

/-- Step count of the integrator at step size `1` over the horizon
`T + 1`. -/
lemma steps_div_one (T : ℕ) : (⌊((T:ℚ) + 1) / 1⌋).toNat = T + 1 := by
  have h : ((T:ℚ) + 1) / 1 = (((T + 1) : ℕ) : ℚ) := by
    push_cast
    ring
  rw [h, Int.floor_natCast, Int.toNat_natCast]

/-- Step count of the integrator at step size `1/10` over the horizon
`T + 1`. -/
lemma steps_div_tenth (T : ℕ) :
    (⌊((T:ℚ) + 1) / (1/10)⌋).toNat = 10 * (T + 1) := by
  have h : ((T:ℚ) + 1) / (1/10) = (((10 * (T + 1)) : ℕ) : ℚ) := by
    push_cast
    ring
  rw [h, Int.floor_natCast, Int.toNat_natCast]

/-- Step count of the integrator at step size `1/100` over the horizon
`T + 1`. -/
lemma steps_div_hundredth (T : ℕ) :
    (⌊((T:ℚ) + 1) / (1/100)⌋).toNat = 100 * (T + 1) := by
  have h : ((T:ℚ) + 1) / (1/100) = (((100 * (T + 1)) : ℕ) : ℚ) := by
    push_cast
    ring
  rw [h, Int.floor_natCast, Int.toNat_natCast]

/-- A trajectory contains a negative value iff some column has a negative
component. -/
lemma hasNeg_iff {n : ℕ} (X : List (Fin n → ℚ)) :
    hasNeg X = true ↔ ∃ c ∈ X, ∃ j, c j < 0 := by
  simp [hasNeg, List.any_eq_true]

/-- C2 (amended): the negative-value retry ladder, for the call pattern
used at every call site (`h = 1` and an integer `t_end = T`, so the
integration horizon is `T + 1`).  If the first attempt trajectory contains
a negative value and no warning occurs, the controller re-integrates at
step size `1/10` keeping every 10th column; if negatives persist there, at
`1/100` keeping every 100th column.  The returned trajectory has `T + 1`
columns — as many as the first attempt — and its column `i` is column
`10*i` (resp. `100*i`) of the finer integration. -/
theorem run_simulation_negative_retry {n : ℕ} {P S A : Type}
    (warns : ℚ → Bool)
    (model : ℚ → (Fin n → ℚ) → P → S → A → (Fin n → ℚ))
    (ICs : Fin n → ℚ) (params : P) (t0 : ℚ) (T : ℕ)
    (naFun : S) (naFunParams : A) (O1 : List (Fin n → ℚ))
    (hw : ∀ σ, warns σ = false)
    (h1 : odeRK4na model ICs params t0 ((T:ℚ) + 1) 1 naFun naFunParams
      = some O1)
    (hneg : hasNeg O1 = true) :
    O1.length = T + 1 ∧
    ∃ O2, odeRK4na model ICs params t0 ((T:ℚ) + 1) (1/10) naFun naFunParams
        = some O2 ∧
      O2.length = 10 * (T + 1) ∧
      (hasNeg (numpyStride 10 O2) = false →
        run_simulation warns ICs params t0 (T:ℚ) 1 naFun naFunParams
          model false = Except.ok (numpyStride 10 O2) ∧
        (numpyStride 10 O2).length = T + 1 ∧
        (∀ i, i < T + 1 →
          (numpyStride 10 O2).getD i default = O2.getD (10 * i) default)) ∧
      (hasNeg (numpyStride 10 O2) = true →
        ∃ O3, odeRK4na model ICs params t0 ((T:ℚ) + 1) (1/100)
            naFun naFunParams = some O3 ∧
          O3.length = 100 * (T + 1) ∧
          run_simulation warns ICs params t0 (T:ℚ) 1 naFun naFunParams
            model false = Except.ok (numpyStride 100 O3) ∧
          (numpyStride 100 O3).length = T + 1 ∧
          (∀ i, i < T + 1 →
            (numpyStride 100 O3).getD i default
              = O3.getD (100 * i) default)) := by
  have hlen1 : O1.length = T + 1 := by
    rw [odeRK4na_eq_some h1, List.length_map, List.length_range,
      steps_div_one]
  have h2 : odeRK4na model ICs params t0 ((T:ℚ) + 1) (1/10) naFun naFunParams
      = some ((List.range (10 * (T + 1))).map
        (odeTrajNA model ICs params naFun naFunParams t0 (1/10))) := by
    rw [odeRK4na_steps_pos _ _ _ _ _ _ _ _
      (by rw [steps_div_tenth]; omega), steps_div_tenth]
  set O2 : List (Fin n → ℚ) := (List.range (10 * (T + 1))).map
    (odeTrajNA model ICs params naFun naFunParams t0 (1/10)) with hO2
  have hlen2 : O2.length = 10 * (T + 1) := by
    rw [hO2, List.length_map, List.length_range]
  have hslen2 : (numpyStride 10 O2).length = T + 1 := by
    rw [numpyStride_length, hlen2]
    omega
  have hsget2 : ∀ i, i < T + 1 →
      (numpyStride 10 O2).getD i default = O2.getD (10 * i) default := by
    intro i hi
    exact numpyStride_getD 10 O2 i (by rw [hlen2]; omega)
  have h3 : odeRK4na model ICs params t0 ((T:ℚ) + 1) (1/100) naFun naFunParams
      = some ((List.range (100 * (T + 1))).map
        (odeTrajNA model ICs params naFun naFunParams t0 (1/100))) := by
    rw [odeRK4na_steps_pos _ _ _ _ _ _ _ _
      (by rw [steps_div_hundredth]; omega), steps_div_hundredth]
  set O3 : List (Fin n → ℚ) := (List.range (100 * (T + 1))).map
    (odeTrajNA model ICs params naFun naFunParams t0 (1/100)) with hO3
  have hlen3 : O3.length = 100 * (T + 1) := by
    rw [hO3, List.length_map, List.length_range]
  have hslen3 : (numpyStride 100 O3).length = T + 1 := by
    rw [numpyStride_length, hlen3]
    omega
  have hsget3 : ∀ i, i < T + 1 →
      (numpyStride 100 O3).getD i default = O3.getD (100 * i) default := by
    intro i hi
    exact numpyStride_getD 100 O3 i (by rw [hlen3]; omega)
  refine ⟨hlen1, O2, h2, hlen2, ?_, ?_⟩
  · intro hsneg
    refine ⟨?_, hslen2, hsget2⟩
    simp only [run_simulation, odeW, hw, Bool.false_eq_true, if_false,
      h1, h2, hneg, if_true, hsneg]
  · intro hsneg
    refine ⟨O3, h3, hlen3, ?_, hslen3, hsget3⟩
    simp only [run_simulation, odeW, hw, Bool.false_eq_true, if_false,
      h1, h2, h3, hneg, if_true, hsneg]
    norm_num

/-- A trajectory with a member column having a negative component tests
negative. -/
lemma hasNeg_of_mem {n : ℕ} {X : List (Fin n → ℚ)} {c : Fin n → ℚ}
    (hc : c ∈ X) (h : ∃ j, c j < 0) : hasNeg X = true :=
  (hasNeg_iff X).mpr ⟨c, hc, h⟩

/-- The state `negICs` has a negative component. -/
lemma negICs_neg : ∃ j, negICs j < 0 :=
  ⟨0, by norm_num [negICs]⟩

/-- The first row of a nonempty `trajW` trajectory is `negICs`. -/
lemma trajW_head_mem (stepsize : ℚ) (m : ℕ) (hm : 0 < m) :
    negICs ∈ trajW stepsize m := by
  unfold trajW
  exact List.mem_map.mpr ⟨0, List.mem_range.mpr hm, rfl⟩

/-- Every nonempty `trajW` trajectory tests negative. -/
lemma hasNeg_trajW (stepsize : ℚ) (m : ℕ) (hm : 0 < m) :
    hasNeg (trajW stepsize m) = true :=
  hasNeg_of_mem (trajW_head_mem stepsize m hm) negICs_neg

/-- Length of a `trajW` trajectory. -/
lemma trajW_length (stepsize : ℚ) (m : ℕ) : (trajW stepsize m).length = m := by
  simp [trajW]

/-- The first column survives any stride of a nonempty `trajW`
trajectory. -/
lemma stride_trajW_head_mem (m : ℕ) (stepsize : ℚ) (mm : ℕ)
    (h : 0 < (mm + m - 1) / m) (hmm : 0 < mm) :
    negICs ∈ numpyStride m (trajW stepsize mm) := by
  unfold numpyStride
  refine List.mem_map.mpr ⟨0, ?_, ?_⟩
  · rw [List.mem_range, trajW_length]
    exact h
  · rw [Nat.mul_zero]
    unfold trajW
    rw [getD_range_map _ _ _ hmm]
    rfl

/-- Every nonempty stride of a nonempty `trajW` trajectory tests
negative. -/
lemma hasNeg_stride_trajW (m : ℕ) (stepsize : ℚ) (mm : ℕ)
    (h : 0 < (mm + m - 1) / m) (hmm : 0 < mm) :
    hasNeg (numpyStride m (trajW stepsize mm)) = true :=
  hasNeg_of_mem (stride_trajW_head_mem m stepsize mm h hmm) negICs_neg

/-- C2 counterexample: at step size `h = 2` and `t_end = 3` the first
attempt produces `int(4/2) = 2` columns and contains negatives, but the
trajectory returned after the retries has `4` columns — not the `2` the
nominal `h`-run produced — so the claim fails for a non-unit step size. -/
theorem run_simulation_negative_retry_counterexample :
    (odeRK4na zeroModel negICs () 0 ((3:ℚ) + 1) 2 () ()).map List.length
      = some 2 ∧
    (run_simulation (fun _ : ℚ => false) negICs () 0 3 2 () ()
      zeroModel false).map List.length = Except.ok 4 := by
  have e1 : ((3:ℚ) + 1) / 2 = ((2:ℕ):ℚ) := by norm_num
  have f1 : (⌊((3:ℚ) + 1) / 2⌋).toNat = 2 := by
    rw [e1, Int.floor_natCast, Int.toNat_natCast]
  have e10 : ((3:ℚ) + 1) / (1/10) = ((40:ℕ):ℚ) := by norm_num
  have f10 : (⌊((3:ℚ) + 1) / (1/10)⌋).toNat = 40 := by
    rw [e10, Int.floor_natCast, Int.toNat_natCast]
  have e100 : ((3:ℚ) + 1) / (1/100) = ((400:ℕ):ℚ) := by norm_num
  have f100 : (⌊((3:ℚ) + 1) / (1/100)⌋).toNat = 400 := by
    rw [e100, Int.floor_natCast, Int.toNat_natCast]
  have h1 : odeRK4na zeroModel negICs () 0 ((3:ℚ) + 1) 2 () ()
      = some (trajW 2 2) := by
    rw [odeRK4na_steps_pos _ _ _ _ _ _ _ _ (by rw [f1]; omega), f1]
    rfl
  have h2 : odeRK4na zeroModel negICs () 0 ((3:ℚ) + 1) (1/10) () ()
      = some (trajW (1/10) 40) := by
    rw [odeRK4na_steps_pos _ _ _ _ _ _ _ _ (by rw [f10]; omega), f10]
    rfl
  have h3 : odeRK4na zeroModel negICs () 0 ((3:ℚ) + 1) (1/100) () ()
      = some (trajW (1/100) 400) := by
    rw [odeRK4na_steps_pos _ _ _ _ _ _ _ _ (by rw [f100]; omega), f100]
    rfl
  have hneg1 : hasNeg (trajW 2 2) = true := hasNeg_trajW 2 2 (by omega)
  have hneg2 : hasNeg (numpyStride 10 (trajW (1/10) 40)) = true :=
    hasNeg_stride_trajW 10 (1/10) 40 (by norm_num) (by omega)
  constructor
  · rw [h1]
    simp [trajW_length]
  · simp only [run_simulation, odeW, Bool.false_eq_true, if_false,
      h1, h2, h3, hneg1, hneg2, if_true]
    norm_num [numpyStride_length, trajW_length, Except.map]

/-- Witness for the amended C2 at `T = 1`: the first attempt from a
negative initial state triggers both retry tiers and the controller
returns the 100-fold down-sampled finest trajectory with `T + 1 = 2`
columns. -/
theorem run_simulation_negative_retry_witness :
    (∀ σ : ℚ, (fun _ : ℚ => false) σ = false) ∧
    odeRK4na zeroModel negICs () 0 (((1:ℕ):ℚ) + 1) 1 () ()
      = some (trajW 1 2) ∧
    hasNeg (trajW 1 2) = true ∧
    run_simulation (fun _ : ℚ => false) negICs () 0 ((1:ℕ):ℚ) 1 () ()
      zeroModel false = Except.ok (numpyStride 100 (trajW (1/100) 200)) ∧
    (numpyStride 100 (trajW (1/100) 200)).length = 1 + 1 := by
  have hw : ∀ σ : ℚ, (fun _ : ℚ => false) σ = false := fun _ => rfl
  have h1 : odeRK4na zeroModel negICs () 0 (((1:ℕ):ℚ) + 1) 1 () ()
      = some (trajW 1 2) := by
    rw [odeRK4na_steps_pos _ _ _ _ _ _ _ _
      (by rw [steps_div_one]; omega), steps_div_one]
    rfl
  have hneg1 : hasNeg (trajW 1 2) = true := hasNeg_trajW 1 2 (by omega)
  obtain ⟨hlen1, O2, h2, hlen2, -, htrue⟩ :=
    run_simulation_negative_retry (fun _ : ℚ => false) zeroModel negICs ()
      0 1 () () (trajW 1 2) hw h1 hneg1
  have h2W : odeRK4na zeroModel negICs () 0 (((1:ℕ):ℚ) + 1) (1/10) () ()
      = some (trajW (1/10) 20) := by
    rw [odeRK4na_steps_pos _ _ _ _ _ _ _ _
      (by rw [steps_div_tenth]; omega), steps_div_tenth]
    rfl
  have hO2 : O2 = trajW (1/10) 20 := Option.some_inj.mp (h2.symm.trans h2W)
  rw [hO2] at htrue
  have hsneg2 : hasNeg (numpyStride 10 (trajW (1/10) 20)) = true :=
    hasNeg_stride_trajW 10 (1/10) 20 (by norm_num) (by omega)
  obtain ⟨O3, h3, hlen3, hrun, hslen3, -⟩ := htrue hsneg2
  have h3W : odeRK4na zeroModel negICs () 0 (((1:ℕ):ℚ) + 1) (1/100) () ()
      = some (trajW (1/100) 200) := by
    rw [odeRK4na_steps_pos _ _ _ _ _ _ _ _
      (by rw [steps_div_hundredth]; omega), steps_div_hundredth]
    rfl
  have hO3 : O3 = trajW (1/100) 200 := Option.some_inj.mp (h3.symm.trans h3W)
  rw [hO3] at hrun hslen3
  exact ⟨hw, h1, hneg1, hrun, hslen3⟩

/-- C6: the warning-recovery ladder.  If the first integration attempt
raises a `RuntimeWarning`, the controller catches it and retries at step
size `1/10` with 10-fold down-sampling; if that retry also raises, it
catches again and retries at `1/100` with 100-fold down-sampling, with no
further catching — a warning raised during this final tier propagates to
the caller. -/
theorem run_simulation_warning_ladder {n : ℕ} {P S A : Type}
    (warns : ℚ → Bool)
    (model : ℚ → (Fin n → ℚ) → P → S → A → (Fin n → ℚ))
    (ICs : Fin n → ℚ) (params : P) (t0 t_end h : ℚ)
    (naFun : S) (naFunParams : A) (noisyS : Bool)
    (hwh : warns h = true) :
    (warns (1/10) = false →
      ∀ O2, odeRK4na model ICs params t0 (t_end + 1) (1/10) naFun naFunParams
          = some O2 →
        run_simulation warns ICs params t0 t_end h naFun naFunParams
          model noisyS = Except.ok (numpyStride 10 O2)) ∧
    (warns (1/10) = true →
      (warns (1/100) = false →
        ∀ O3, odeRK4na model ICs params t0 (t_end + 1) (1/100)
            naFun naFunParams = some O3 →
          run_simulation warns ICs params t0 t_end h naFun naFunParams
            model noisyS = Except.ok (numpyStride 100 O3)) ∧
      (warns (1/100) = true →
        run_simulation warns ICs params t0 t_end h naFun naFunParams
          model noisyS = Except.error PyErr.runtimeWarning)) := by
  refine ⟨?_, fun hw10 => ⟨?_, ?_⟩⟩
  · intro hw10 O2 h2
    simp only [run_simulation, odeW, hwh, if_true, hw10,
      Bool.false_eq_true, if_false, h2]
  · intro hw100 O3 h3
    simp only [run_simulation, odeW, hwh, if_true, hw10,
      hw100, Bool.false_eq_true, if_false, h3]
  · intro hw100
    simp only [run_simulation, odeW, hwh, if_true, hw10, hw100]

/-- Witness for C6: with an oracle that warns at every step size, the
first attempt and both retries raise, and the `RuntimeWarning` of the
final tier propagates to the caller. -/
theorem run_simulation_warning_ladder_witness :
    ((fun _ : ℚ => true) (1:ℚ) = true) ∧
    run_simulation (fun _ : ℚ => true) negICs () 0 0 1 () ()
      zeroModel false = Except.error PyErr.runtimeWarning :=
  ⟨rfl,
    ((run_simulation_warning_ladder (fun _ : ℚ => true) zeroModel negICs ()
      0 0 1 () () false rfl).2 rfl).2 rfl⟩

/-- C7: soft failure on persistent negatives.  When no warning occurs and
the trajectories of all three tiers test negative — including the
100-fold down-sampled finest one — `run_simulation` raises nothing,
performs no further retry or check, and returns the still-negative
down-sampled finest trajectory as-is. -/
theorem run_simulation_soft_failure {n : ℕ} {P S A : Type}
    (warns : ℚ → Bool)
    (model : ℚ → (Fin n → ℚ) → P → S → A → (Fin n → ℚ))
    (ICs : Fin n → ℚ) (params : P) (t0 t_end h : ℚ)
    (naFun : S) (naFunParams : A) (O1 O2 O3 : List (Fin n → ℚ))
    (hw : ∀ σ, warns σ = false)
    (h1 : odeRK4na model ICs params t0 (t_end + 1) h naFun naFunParams
      = some O1)
    (hneg1 : hasNeg O1 = true)
    (h2 : odeRK4na model ICs params t0 (t_end + 1) (1/10) naFun naFunParams
      = some O2)
    (hneg2 : hasNeg (numpyStride 10 O2) = true)
    (h3 : odeRK4na model ICs params t0 (t_end + 1) (1/100) naFun naFunParams
      = some O3)
    (hneg3 : hasNeg (numpyStride 100 O3) = true) :
    run_simulation warns ICs params t0 t_end h naFun naFunParams model false
      = Except.ok (numpyStride 100 O3) := by
  simp only [run_simulation, odeW, hw, Bool.false_eq_true, if_false,
    h1, h2, h3, hneg1, hneg2, if_true]
  norm_num

/-- Witness for C7 at `t_end = 0`: all three tiers of the zero-derivative
run from a negative state test negative, and the controller still returns
the down-sampled finest trajectory with `Except.ok`. -/
theorem run_simulation_soft_failure_witness :
    (∀ σ : ℚ, (fun _ : ℚ => false) σ = false) ∧
    odeRK4na zeroModel negICs () 0 ((0:ℚ) + 1) 1 () () = some (trajW 1 1) ∧
    hasNeg (trajW 1 1) = true ∧
    odeRK4na zeroModel negICs () 0 ((0:ℚ) + 1) (1/10) () ()
      = some (trajW (1/10) 10) ∧
    hasNeg (numpyStride 10 (trajW (1/10) 10)) = true ∧
    odeRK4na zeroModel negICs () 0 ((0:ℚ) + 1) (1/100) () ()
      = some (trajW (1/100) 100) ∧
    hasNeg (numpyStride 100 (trajW (1/100) 100)) = true ∧
    run_simulation (fun _ : ℚ => false) negICs () 0 0 1 () ()
      zeroModel false = Except.ok (numpyStride 100 (trajW (1/100) 100)) := by
  have e1 : ((0:ℚ) + 1) / 1 = ((1:ℕ):ℚ) := by norm_num
  have f1 : (⌊((0:ℚ) + 1) / 1⌋).toNat = 1 := by
    rw [e1, Int.floor_natCast, Int.toNat_natCast]
  have e10 : ((0:ℚ) + 1) / (1/10) = ((10:ℕ):ℚ) := by norm_num
  have f10 : (⌊((0:ℚ) + 1) / (1/10)⌋).toNat = 10 := by
    rw [e10, Int.floor_natCast, Int.toNat_natCast]
  have e100 : ((0:ℚ) + 1) / (1/100) = ((100:ℕ):ℚ) := by norm_num
  have f100 : (⌊((0:ℚ) + 1) / (1/100)⌋).toNat = 100 := by
    rw [e100, Int.floor_natCast, Int.toNat_natCast]
  have h1 : odeRK4na zeroModel negICs () 0 ((0:ℚ) + 1) 1 () ()
      = some (trajW 1 1) := by
    rw [odeRK4na_steps_pos _ _ _ _ _ _ _ _ (by rw [f1]; omega), f1]
    rfl
  have h2 : odeRK4na zeroModel negICs () 0 ((0:ℚ) + 1) (1/10) () ()
      = some (trajW (1/10) 10) := by
    rw [odeRK4na_steps_pos _ _ _ _ _ _ _ _ (by rw [f10]; omega), f10]
    rfl
  have h3 : odeRK4na zeroModel negICs () 0 ((0:ℚ) + 1) (1/100) () ()
      = some (trajW (1/100) 100) := by
    rw [odeRK4na_steps_pos _ _ _ _ _ _ _ _ (by rw [f100]; omega), f100]
    rfl
  have hneg1 : hasNeg (trajW 1 1) = true := hasNeg_trajW 1 1 (by omega)
  have hneg2 : hasNeg (numpyStride 10 (trajW (1/10) 10)) = true :=
    hasNeg_stride_trajW 10 (1/10) 10 (by norm_num) (by omega)
  have hneg3 : hasNeg (numpyStride 100 (trajW (1/100) 100)) = true :=
    hasNeg_stride_trajW 100 (1/100) 100 (by norm_num) (by omega)
  exact ⟨fun _ => rfl, h1, hneg1, h2, hneg2, h3, hneg3,
    run_simulation_soft_failure (fun _ : ℚ => false) zeroModel negICs ()
      0 0 1 () () (trajW 1 1) (trajW (1/10) 10) (trajW (1/100) 100)
      (fun _ => rfl) h1 hneg1 h2 hneg2 h3 hneg3⟩

/-- C10: the `noisyS` flag disables the negative-value retry ladder.
When no warning occurs, the first attempt yields a trajectory with
negative values, and `noisyS = true`, no retry integration runs and the
negative first-attempt trajectory itself is returned. -/
theorem run_simulation_noisyS {n : ℕ} {P S A : Type}
    (warns : ℚ → Bool)
    (model : ℚ → (Fin n → ℚ) → P → S → A → (Fin n → ℚ))
    (ICs : Fin n → ℚ) (params : P) (t0 t_end h : ℚ)
    (naFun : S) (naFunParams : A) (O1 : List (Fin n → ℚ))
    (hwh : warns h = false)
    (h1 : odeRK4na model ICs params t0 (t_end + 1) h naFun naFunParams
      = some O1)
    (hneg : hasNeg O1 = true) :
    run_simulation warns ICs params t0 t_end h naFun naFunParams model true
      = Except.ok O1 := by
  simp only [run_simulation, odeW, hwh, Bool.false_eq_true, if_false,
    h1, hneg, if_true]
  norm_num

/-- Witness for C10 at `t_end = 0`: with `noisyS = true` the negative
one-column first attempt is returned unchanged. -/
theorem run_simulation_noisyS_witness :
    ((fun _ : ℚ => false) (1:ℚ) = false) ∧
    odeRK4na zeroModel negICs () 0 ((0:ℚ) + 1) 1 () () = some (trajW 1 1) ∧
    hasNeg (trajW 1 1) = true ∧
    run_simulation (fun _ : ℚ => false) negICs () 0 0 1 () ()
      zeroModel true = Except.ok (trajW 1 1) := by
  have e1 : ((0:ℚ) + 1) / 1 = ((1:ℕ):ℚ) := by norm_num
  have f1 : (⌊((0:ℚ) + 1) / 1⌋).toNat = 1 := by
    rw [e1, Int.floor_natCast, Int.toNat_natCast]
  have h1 : odeRK4na zeroModel negICs () 0 ((0:ℚ) + 1) 1 () ()
      = some (trajW 1 1) := by
    rw [odeRK4na_steps_pos _ _ _ _ _ _ _ _ (by rw [f1]; omega), f1]
    rfl
  have hneg1 : hasNeg (trajW 1 1) = true := hasNeg_trajW 1 1 (by omega)
  exact ⟨rfl, h1, hneg1,
    run_simulation_noisyS (fun _ : ℚ => false) zeroModel negICs ()
      0 0 1 () () (trajW 1 1) rfl h1 hneg1⟩

end CMyBPC
